import Mathlib

/-!
Verification of the Blender-to-Darts exporter's material/texture conversion
core (materials.py, textures.py, scene.py), shallowly embedded in Lean.

Modelling conventions:
* Python floats are modelled as exact rationals; all float arithmetic the
  verified claims depend on (products, sums, comparisons against constants)
  is exact on the values involved.
* Python dicts are insertion-ordered association lists; item assignment and
  dict.update follow CPython semantics (overwriting keeps the position of an
  existing key, new keys append at the end).
* Exceptions are modelled with an error monad that also threads the reporter
  state (the accumulated warnings), so that messages emitted before an
  exception survive it, as in Python.
* ctx.info is verbosity-gated logging with no effect observable by any claim;
  it is modelled as a no-op and message interpolation is not modelled
  (warning messages are kept as fixed strings without interpolated parts).
* Recursive graph walks (follow_link, convert_texture_node,
  cycles_surface_to_dict) have no termination guarantee in the source; they
  are modelled with an explicit fuel parameter whose exhaustion is
  PyErr.recursionError, mirroring the RecursionError CPython raises when the
  recursion limit is exceeded.
* Node kinds whose converters are not modelled (image and environment
  textures, whose conversion writes image files to disk) dispatch to
  PyErr.unmodeled, an error distinct from every Python exception, so no
  theorem silently conflates them with source behaviour.
-/

/-- CPython numbers as they appear in socket default values: the exporter's
`SceneWriter.color` distinguishes int from float via `type(...)`. -/
inductive PyNum where
  | int (z : ℤ)
  | float (q : ℚ)
  deriving DecidableEq, Repr

/-- An element of a Python sequence passed to `SceneWriter.color`:
a number, a tuple (of numbers), or anything else. -/
inductive PyElem where
  | num (n : PyNum)
  | tup (l : List PyNum)
  | other
  deriving DecidableEq, Repr

/-- A raw Python literal value carried by a socket's `default_value`. -/
inductive PyRaw where
  | num (n : PyNum)
  | str (s : String)
  | seq (l : List PyElem)
  deriving DecidableEq, Repr

def PyNum.toQ : PyNum → ℚ
  | .int z => (z : ℚ)
  | .float q => q

/-- CPython type identity, as compared by `type(value[i]) != type(value[i+1])`. -/
def PyElem.pytype : PyElem → ℕ
  | .num (.int _) => 0
  | .num (.float _) => 1
  | .tup _ => 2
  | .other => 3

/-- `isinstance(x, (float, int, tuple))`. -/
def PyElem.isColorEntry : PyElem → Bool
  | .num _ => true
  | .tup _ => true
  | .other => false

/-- `isinstance(x, (float, int))`. -/
def PyElem.isNumber : PyElem → Bool
  | .num _ => true
  | _ => false

/-- The Python exceptions (and modelling artifacts) that can arise in the
conversion core.  `recursionError` stands for CPython's RecursionError;
`unmodeled` marks dispatch into source code deliberately left out of this
embedding (image/environment texture export). -/
inductive PyErr where
  | notImplemented (msg : String)
  | valueError (msg : String)
  | typeError (msg : String)
  | keyError (key : String)
  | indexError
  | zeroDivisionError
  | recursionError
  | unmodeled (kind : String)
  deriving DecidableEq, Repr

def PyErr.isNotImplemented : PyErr → Bool
  | .notImplemented _ => true
  | _ => false

/-- The exporter's descriptor values: JSON-like data produced by the
converters (numbers, strings, booleans, lists, insertion-ordered dicts, and
Python's None). -/
inductive DVal where
  | num (q : ℚ)
  | str (s : String)
  | bool (b : Bool)
  | list (items : List DVal)
  | dict (fields : List (String × DVal))
  | none

/-- Key membership in an association-list dict. -/
def dmem (d : List (String × DVal)) (k : String) : Bool :=
  d.any (fun p => p.1 == k)

/-- CPython item assignment `d[k] = v`: overwrite in place, or append. -/
def dset (d : List (String × DVal)) (k : String) (v : DVal) :
    List (String × DVal) :=
  match d with
  | [] => [(k, v)]
  | (k0, v0) :: rest =>
    if k0 == k then (k0, v) :: rest else (k0, v0) :: dset rest k v

/-- CPython `d.update(e)`. -/
def dupdate (d e : List (String × DVal)) : List (String × DVal) :=
  e.foldl (fun acc p => dset acc p.1 p.2) d

/-- Dict lookup (`d[k]` when present). -/
def dgetl (d : List (String × DVal)) (k : String) : Option DVal :=
  (d.find? (fun p => p.1 == k)).map Prod.snd

/-- CPython `d.pop(k)`: the dict with key `k` removed. -/
def dpop (d : List (String × DVal)) (k : String) : List (String × DVal) :=
  d.filter (fun p => p.1 != k)

/-- Key membership through a `DVal`. -/
def DVal.hasKey : DVal → String → Bool
  | .dict d, k => dmem d k
  | _, _ => false

/-- Lookup through a `DVal`. -/
def DVal.getKey : DVal → String → Option DVal
  | .dict d, k => dgetl d k
  | _, _ => Option.none

/-- CPython truthiness for the values the converters test. -/
def DVal.truthy : DVal → Bool
  | .num q => q != 0
  | .str s => s != ""
  | .bool b => b
  | .list l => !l.isEmpty
  | .dict d => !d.isEmpty
  | .none => false

/-- `d.update(x)` / `d[k] = v` require a dict on the left; everything the
converters update is one.  Non-dicts raise TypeError as in Python. -/
def DVal.asDict : DVal → Except PyErr (List (String × DVal))
  | .dict d => .ok d
  | _ => .error (.typeError "argument must be a mapping")

def DVal.setItem (v : DVal) (k : String) (x : DVal) : Except PyErr DVal :=
  match v with
  | .dict d => .ok (.dict (dset d k x))
  | _ => .error (.typeError "object does not support item assignment")

/-- The mutable state threaded through a conversion run: the warnings
accumulated via the reporting collaborator. -/
structure ExpState where
  warnings : List String := []
  deriving DecidableEq, Repr

/-- The conversion monad: CPython exceptions plus the reporter state.  Errors
carry the state forward (a Python exception does not roll back warnings that
were already reported). -/
def ConvM (α : Type) : Type := ExpState → Except PyErr α × ExpState

instance : Monad ConvM where
  pure a := fun s => (Except.ok a, s)
  bind x f := fun s =>
    match x s with
    | (Except.ok a, s1) => f a s1
    | (Except.error e, s1) => (Except.error e, s1)

def ConvM.throw {α : Type} (e : PyErr) : ConvM α := fun s => (Except.error e, s)

def liftE {α : Type} : Except PyErr α → ConvM α
  | .ok a => pure a
  | .error e => ConvM.throw e

/-- `ctx.report` with a WARNING (or WARN) tag. -/
def warnM (msg : String) : ConvM Unit :=
  fun s => (Except.ok (), { s with warnings := s.warnings ++ [msg] })

/-- `ctx.info`: verbosity-gated logging, unobservable by every claim. -/
def infoM (_msg : String) : ConvM Unit := pure ()

/-- `try: body except NotImplementedError as e: handler(e.args[0])`. -/
def catchNIE {α : Type} (body : ConvM α) (handler : String → ConvM α) :
    ConvM α := fun s =>
  match body s with
  | (Except.ok a, s1) => (Except.ok a, s1)
  | (Except.error (PyErr.notImplemented m), s1) => handler m s1
  | (Except.error e, s1) => (Except.error e, s1)

theorem ConvM.pure_apply {α : Type} (a : α) (s : ExpState) :
    (pure a : ConvM α) s = (Except.ok a, s) := rfl

theorem ConvM.bind_apply {α β : Type} (x : ConvM α) (f : α → ConvM β)
    (s : ExpState) :
    (x >>= f) s =
      match x s with
      | (Except.ok a, s1) => f a s1
      | (Except.error e, s1) => (Except.error e, s1) := rfl

theorem ConvM.bind_eq_ok {α β : Type} {x : ConvM α} {f : α → ConvM β}
    {s s2 : ExpState} {b : β} :
    (x >>= f) s = (Except.ok b, s2) ↔
      ∃ a s1, x s = (Except.ok a, s1) ∧ f a s1 = (Except.ok b, s2) := by
  constructor
  · intro h
    rw [ConvM.bind_apply] at h
    rcases hx : x s with ⟨r, s1⟩
    rw [hx] at h
    cases r with
    | ok a => exact ⟨a, s1, rfl, h⟩
    | error e => exact absurd h (by simp)
  · rintro ⟨a, s1, hx, hf⟩
    rw [ConvM.bind_apply, hx]
    exact hf

theorem liftE_ok {α : Type} (a : α) (s : ExpState) :
    liftE (Except.ok a) s = (Except.ok a, s) := rfl

theorem liftE_apply_eq_ok {α : Type} {x : Except PyErr α} {s s1 : ExpState}
    {a : α} : liftE x s = (Except.ok a, s1) ↔ x = Except.ok a ∧ s1 = s := by
  cases x with
  | ok b =>
    have hb : liftE (Except.ok b) s = (Except.ok b, s) := rfl
    rw [hb, Prod.mk.injEq]
    constructor
    · rintro ⟨h1, h2⟩
      injection h1 with h3
      exact ⟨by rw [h3], h2.symm⟩
    · rintro ⟨h1, h2⟩
      injection h1 with h3
      exact ⟨by rw [h3], h2.symm⟩
  | error e =>
    have hb : liftE (Except.error e : Except PyErr α) s = (Except.error e, s) :=
      rfl
    rw [hb, Prod.mk.injEq]
    simp

/-! ## The value normalizer: `SceneWriter.color` (scene.py lines 143-170) -/

/-- `any(type(value[i]) != type(value[i+1]) for i in range(len(value) - 1))`. -/
def adjacentTypeMismatch : List PyElem → Bool
  | a :: b :: rest => (a.pytype != b.pytype) || adjacentTypeMismatch (b :: rest)
  | _ => false

/-- Raw list entries embedded verbatim into the result (`value[:3]`). -/
def PyElem.toDVal : PyElem → DVal
  | .num n => .num n.toQ
  | .tup l => .list (l.map (fun n => DVal.num n.toQ))
  | .other => .none

/--
`SceneWriter.color` (scene.py lines 143-170).  Given a raw color value,
format it for the scene dict:
* a plain number is returned as itself;
* otherwise the value is materialised as a list; a non-(float/int/tuple)
  entry or adjacent entries of differing concrete type raise ValueError;
* if the first element is a number: length 3 or 4 yields the first three
  entries, length 1 yields the single element, any other length raises
  ValueError (the empty list dies in `value[0]` with IndexError);
* any remaining case (first element a tuple) falls through to `return 0`.
A string input is iterated character-wise by `list(value)`, so its entries
fail the float/int/tuple check.
-/
def SceneWriter.color (value : PyRaw) : Except PyErr DVal :=
  match value with
  | .num n => .ok (.num n.toQ)
  | .str _ => .error (.valueError "Unknown color entry")
  | .seq l =>
    if l.any (fun x => !x.isColorEntry) then
      .error (.valueError "Unknown color entry")
    else if adjacentTypeMismatch l then
      .error (.valueError "Mixed types in color entry")
    else
      match l with
      | [] => .error .indexError
      | x :: _ =>
        match x with
        | .num n =>
          if l.length == 3 || l.length == 4 then
            .ok (.list ((l.take 3).map PyElem.toDVal))
          else if l.length == 1 then .ok (.num n.toQ)
          else .error (.valueError "Expected color items to be 1,3 or 4")
        | _ =>
          -- the numeric branch is skipped; the function body ends in return 0
          .ok (.num 0)

/-- `material_name` (scene.py line 131): Python `replace(" ", "_")` for the
single-character pattern, implemented character-wise so the kernel can
evaluate it. -/
def material_name (b_name : String) : String :=
  String.mk (b_name.data.map (fun c => if c = ' ' then '_' else c))

/-! ## The shading graph model -/

/-- `socket.links[0]`: the driving (node, output socket) pair, by node name. -/
structure SocketRef where
  from_node : String
  from_socket : String
  deriving DecidableEq, Repr

/-- An input socket: an optional incoming link plus a literal default. -/
structure InSocket where
  link : Option SocketRef := Option.none
  default_value : PyRaw := .num (.float 0)
  deriving DecidableEq, Repr

def InSocket.isLinked (s : InSocket) : Bool := s.link.isSome

/-- Reading `default_value` where the source expects a plain float
(strengths, IORs, densities).  Blender guarantees the socket type; a
non-numeric default never occurs on these sockets. -/
def PyRaw.asFloat : PyRaw → ℚ
  | .num n => n.toQ
  | _ => 0

/-- `default_value[:]` on a color socket: the list of channel floats.
Iterating a float raises TypeError, as in Python. -/
def PyRaw.channels : PyRaw → Except PyErr (List ℚ)
  | .seq l => l.mapM (fun e =>
      match e with
      | .num n => Except.ok n.toQ
      | _ => Except.error (.typeError "unsupported operand type"))
  | _ => .error (.typeError "object is not iterable")

/-- Reading `default_value` of a string socket (grid name attribute). -/
def PyRaw.asString : PyRaw → String
  | .str s => s
  | _ => ""

/-- A shading node.  Fields default so that concrete test nodes mention only
what they use; which fields exist on which Blender node kind is guaranteed
by the host API. -/
structure Node where
  bl_idname : String := ""
  inputs : List (String × InSocket) := []
  distribution : String := "GGX"
  space : String := "TANGENT"
  invert : Bool := false
  noise_dimensions : String := "3D"
  voronoi_dimensions : String := "3D"
  normalize : Bool := true
  feature : String := "F1"
  distance : String := "EUCLIDEAN"
  musgrave_type : String := "FBM"
  wave_type : String := "BANDS"
  bands_direction : String := "X"
  rings_direction : String := "X"
  wave_profile : String := "SIN"
  vector_type : String := "POINT"
  operation : String := "ADD"
  use_clamp : Bool := false
  blend_type : String := "MIX"
  clamp_factor : Bool := true
  clamp_result : Bool := false
  data_type : String := "RGBA"
  clamp_type : String := "MINMAX"
  node_color : PyRaw := .seq []
  gradient_type : String := "LINEAR"
  mode : String := "RGB"
  use_pixel_size : Bool := false
  brick_offset : ℚ := 1/2
  offset_frequency : ℚ := 2
  squash : ℚ := 1
  squash_frequency : ℚ := 2
  ramp_color_mode : String := "RGB"
  ramp_interpolation : String := "LINEAR"
  ramp_hue_interpolation : String := "NEAR"
  ramp_elements : List (ℚ × PyRaw × ℚ) := []
  has_object : Bool := false
  deriving DecidableEq, Repr

/-- `node.inputs[name]`: Blender collection access raises KeyError when the
socket does not exist. -/
def Node.getInput (n : Node) (name : String) : Except PyErr InSocket :=
  match n.inputs.find? (fun p => p.1 == name) with
  | some p => .ok p.2
  | Option.none => .error (.keyError name)

/-- `name in node.inputs`. -/
def Node.hasInput (n : Node) (name : String) : Bool :=
  n.inputs.any (fun p => p.1 == name)

/-- `node.inputs[i]` (positional). -/
def Node.inputAt (n : Node) (i : ℕ) : Except PyErr InSocket :=
  match n.inputs.get? i with
  | some p => .ok p.2
  | Option.none => .error .indexError

/-- `len(node.inputs)`. -/
def Node.numInputs (n : Node) : ℕ := n.inputs.length

/-- A node tree: nodes keyed by their (unique) node name. -/
abbrev Graph : Type := List (String × Node)

def Graph.find? (g : Graph) (name : String) : Option Node :=
  (List.find? (fun p => p.1 == name) g).map Prod.snd

def Graph.hasNode (g : Graph) (name : String) : Bool :=
  (Graph.find? g name).isSome

def Graph.findE (g : Graph) (name : String) : Except PyErr Node :=
  match Graph.find? g name with
  | some n => .ok n
  | Option.none => .error (.keyError name)

/-- `socket.links[0].from_node`: IndexError on an unlinked socket, KeyError
if the link dangles (never in a host graph). -/
def linkedFromNode (g : Graph) (s : InSocket) : Except PyErr Node :=
  match s.link with
  | some ref => Graph.findE g ref.from_node
  | Option.none => .error .indexError

/-- `socket.links[0].from_socket` (its name). -/
def linkedFromSocket (s : InSocket) : Except PyErr String :=
  match s.link with
  | some ref => .ok ref.from_socket
  | Option.none => .error .indexError

/-- Is this socket driven by a reroute (pass-through) node? -/
def isRerouteDriven (g : Graph) (s : InSocket) : Bool :=
  match s.link with
  | some ref =>
    match Graph.find? g ref.from_node with
    | some n => n.bl_idname == "NodeReroute"
    | Option.none => false
  | Option.none => false

/-- The reroute node's own first input socket, if `s` is reroute-driven. -/
def rerouteStep (g : Graph) (s : InSocket) : Option InSocket :=
  match s.link with
  | some ref =>
    match Graph.find? g ref.from_node with
    | some n =>
      if n.bl_idname == "NodeReroute" then
        match n.inputs.get? 0 with
        | some p => some p.2
        | Option.none => Option.none
      else Option.none
    | Option.none => Option.none
  | Option.none => Option.none

/--
`SceneWriter.follow_link` (scene.py lines 134-141): recursively follow a
link potentially via reroute nodes.  The source has no cycle guard; the fuel
models CPython's recursion limit (RecursionError on exhaustion).
-/
def follow_link (g : Graph) : ℕ → InSocket → Except PyErr InSocket
  | 0, _ => .error .recursionError
  | fuel + 1, socket =>
    match socket.link with
    | some ref =>
      match Graph.find? g ref.from_node with
      | some n =>
        if n.bl_idname == "NodeReroute" then
          match n.inputs.get? 0 with
          | some p => follow_link g fuel p.2
          | Option.none => .error .indexError
        else .ok socket
      | Option.none => .ok socket
    | Option.none => .ok socket

/-! ## The export context (`SceneWriter`, scene.py lines 37-125): the
configuration flags the conversion core reads. -/

structure Ctx where
  verbose : Bool := false
  material_mode : String := "CONVERT"
  glossy_mode : String := "rough conductor"
  use_normal_maps : Bool := true
  use_bump_maps : Bool := true
  force_two_sided : Bool := true
  enable_blackbody : Bool := true
  enable_brick : Bool := true
  enable_checker : Bool := true
  enable_clamp : Bool := true
  enable_color_ramp : Bool := true
  enable_coord : Bool := true
  enable_fresnel : Bool := true
  enable_gradient : Bool := true
  enable_layer_weight : Bool := true
  enable_mapping : Bool := true
  enable_math : Bool := true
  enable_musgrave : Bool := true
  enable_mix_rgb : Bool := true
  enable_mix_node : Bool := true
  enable_noise : Bool := true
  enable_separate : Bool := true
  enable_voronoi : Bool := true
  enable_wave : Bool := true
  enable_wavelength : Bool := true
  enable_wireframe : Bool := true
  deriving DecidableEq, Repr

/-! ## Texture node converters (textures.py)

Each converter mirrors its source function.  `rec` stands for the recursive
call `textures.convert_texture_node(ctx, socket)`; `convert_texture_node`
below ties the knot with an explicit fuel. -/

/-- `dummy_color` (textures.py line 7). -/
def dummy_color : Except PyErr DVal :=
  SceneWriter.color (.seq [.num (.float 0), .num (.float 1), .num (.float (3/10))])

/-- A fixed lookup table access `table[key]`: KeyError on a missing key. -/
def lookupTable (t : List (String × String)) (k : String) :
    Except PyErr String :=
  match t.find? (fun p => p.1 == k) with
  | some p => .ok p.2
  | Option.none => .error (.keyError k)

/-- `RoughnessMode` (materials.py lines 6-11). -/
def RoughnessMode : List (String × String) :=
  [("GGX", "ggx"), ("BECKMANN", "beckmann"),
   ("ASHIKHMIN_SHIRLEY", "blinn"), ("MULTI_GGX", "ggx")]

/-- The `{"1D": 1, "2D": 2, "3D": 3, "4D": 4}` dimension tables. -/
def dimensionsOf (k : String) : Except PyErr ℕ :=
  match k with
  | "1D" => .ok 1
  | "2D" => .ok 2
  | "3D" => .ok 3
  | "4D" => .ok 4
  | _ => .error (.keyError k)

/-- `convert_checker_texture_node` (textures.py lines 138-159). -/
def convert_checker_texture_node (ctx : Ctx) (rec : InSocket → ConvM DVal)
    (node : Node) (_out_socket : String) : ConvM DVal := do
  if !ctx.enable_checker then liftE dummy_color
  else do
    let scaleSock ← liftE (node.getInput "Scale")
    if scaleSock.isLinked then
      ConvM.throw (.notImplemented "Textured Scale values are not supported")
    else do
      let scale ← rec scaleSock
      let c1 ← rec (← liftE (node.getInput "Color1"))
      let c2 ← rec (← liftE (node.getInput "Color2"))
      let params := [("type", DVal.str "checker"), ("scale", scale),
        ("color1", c1), ("color2", c2)]
      let vs ← liftE (node.getInput "Vector")
      if vs.isLinked then do
        let v ← rec vs
        pure (.dict (dset params "vector" v))
      else pure (.dict params)

/-- `convert_brick_texture_node` (textures.py lines 162-192). -/
def convert_brick_texture_node (ctx : Ctx) (rec : InSocket → ConvM DVal)
    (node : Node) (out_socket : String) : ConvM DVal := do
  if !ctx.enable_brick then liftE dummy_color
  else do
    let c1 ← rec (← liftE (node.getInput "Color1"))
    let c2 ← rec (← liftE (node.getInput "Color2"))
    let mortar ← rec (← liftE (node.getInput "Mortar"))
    let scale ← rec (← liftE (node.getInput "Scale"))
    let mortarSize ← rec (← liftE (node.getInput "Mortar Size"))
    let mortarSmooth ← rec (← liftE (node.getInput "Mortar Smooth"))
    let bias ← rec (← liftE (node.getInput "Bias"))
    let brickWidth ← rec (← liftE (node.getInput "Brick Width"))
    let rowHeight ← rec (← liftE (node.getInput "Row Height"))
    let params := [("type", DVal.str "brick"),
      ("offset", DVal.num node.brick_offset),
      ("offset frequency", DVal.num node.offset_frequency),
      ("squash", DVal.num node.squash),
      ("squash frequency", DVal.num node.squash_frequency),
      ("color1", c1), ("color2", c2), ("mortar", mortar), ("scale", scale),
      ("mortar size", mortarSize), ("mortar smooth", mortarSmooth),
      ("bias", bias), ("brick width", brickWidth), ("row height", rowHeight),
      ("output", DVal.str (if out_socket == "Fac" then "float" else "color"))]
    let vs ← liftE (node.getInput "Vector")
    if vs.isLinked then do
      let v ← rec vs
      pure (.dict (dset params "vector" v))
    else pure (.dict params)

/-- `convert_wave_texture_node` (textures.py lines 195-225). -/
def convert_wave_texture_node (ctx : Ctx) (rec : InSocket → ConvM DVal)
    (node : Node) (_out_socket : String) : ConvM DVal := do
  if !ctx.enable_wave then liftE (SceneWriter.color (.num (.float (1/2))))
  else do
    let profile ← liftE (lookupTable
      [("SIN", "sine"), ("SAW", "saw"), ("TRI", "triangle")] node.wave_profile)
    let scale ← rec (← liftE (node.getInput "Scale"))
    let distortion ← rec (← liftE (node.getInput "Distortion"))
    let detail ← rec (← liftE (node.getInput "Detail"))
    let detailScale ← rec (← liftE (node.getInput "Detail Scale"))
    let detailRoughness ← rec (← liftE (node.getInput "Detail Roughness"))
    let phase ← rec (← liftE (node.getInput "Phase Offset"))
    let params := [("type", DVal.str "wave"),
      ("wave type", DVal.str node.wave_type.toLower),
      ("direction", DVal.str (if node.wave_type == "BANDS" then
          node.bands_direction.toLower else node.rings_direction.toLower)),
      ("profile", DVal.str profile),
      ("scale", scale), ("distortion", distortion), ("detail", detail),
      ("detail scale", detailScale), ("detail roughness", detailRoughness),
      ("phase offset", phase)]
    let vs ← liftE (node.getInput "Vector")
    if vs.isLinked then do
      let v ← rec vs
      pure (.dict (dset params "vector" v))
    else pure (.dict params)

/-- `convert_white_noise_texture_node` (textures.py lines 228-249).
This converter is not gated by any capability flag. -/
def convert_white_noise_texture_node (_ctx : Ctx)
    (rec : InSocket → ConvM DVal) (node : Node) (out_socket : String) :
    ConvM DVal := do
  let dims ← liftE (dimensionsOf node.noise_dimensions)
  let params := [("type", DVal.str "white noise"),
    ("dimensions", DVal.num (dims : ℚ)),
    ("output", DVal.str (if out_socket == "Value" then "float" else "color"))]
  let params ← if dims == 1 || dims == 4 then do
      let w ← rec (← liftE (node.getInput "W"))
      pure (dset params "w" w)
    else pure params
  if dims != 1 then do
    let vs ← liftE (node.getInput "Vector")
    if vs.isLinked then do
      let v ← rec vs
      pure (.dict (dset params "vector" v))
    else pure (.dict params)
  else pure (.dict params)

/-- `convert_noise_texture_node` (textures.py lines 252-281). -/
def convert_noise_texture_node (ctx : Ctx) (rec : InSocket → ConvM DVal)
    (node : Node) (out_socket : String) : ConvM DVal := do
  if !ctx.enable_noise then liftE (SceneWriter.color (.num (.float (1/2))))
  else do
    let dims ← liftE (dimensionsOf node.noise_dimensions)
    let scale ← rec (← liftE (node.getInput "Scale"))
    let detail ← rec (← liftE (node.getInput "Detail"))
    let roughness ← rec (← liftE (node.getInput "Roughness"))
    let lacunarity ← rec (← liftE (node.getInput "Lacunarity"))
    let distortion ← rec (← liftE (node.getInput "Distortion"))
    let params := [("type", DVal.str "noise"), ("scale", scale),
      ("detail", detail), ("roughness", roughness),
      ("lacunarity", lacunarity), ("distortion", distortion),
      ("dimensions", DVal.num (dims : ℚ)),
      ("normalize", DVal.bool node.normalize),
      ("output", DVal.str (if out_socket == "Fac" then "float" else "color"))]
    let params ← if dims == 1 || dims == 4 then do
        let w ← rec (← liftE (node.getInput "W"))
        pure (dset params "w" w)
      else pure params
    if dims != 1 then do
      let vs ← liftE (node.getInput "Vector")
      if vs.isLinked then do
        let v ← rec vs
        pure (.dict (dset params "vector" v))
      else pure (.dict params)
    else pure (.dict params)

/-- `convert_voronoi_texture_node` (textures.py lines 284-314). -/
def convert_voronoi_texture_node (ctx : Ctx) (rec : InSocket → ConvM DVal)
    (node : Node) (out_socket : String) : ConvM DVal := do
  if !ctx.enable_voronoi then liftE (SceneWriter.color (.num (.float (1/2))))
  else do
    let dims ← liftE (dimensionsOf node.voronoi_dimensions)
    let scale ← rec (← liftE (node.getInput "Scale"))
    let randomness ← rec (← liftE (node.getInput "Randomness"))
    let params := [("type", DVal.str "voronoi"), ("scale", scale),
      ("randomness", randomness), ("dimensions", DVal.num (dims : ℚ)),
      ("feature", DVal.str ((node.feature.toLower).replace "_" " ")),
      ("distance", DVal.str node.distance.toLower),
      ("output", DVal.str out_socket.toLower)]
    let params ← if (node.feature.toLower).replace "_" " " == "smooth f1" then do
        let sm ← rec (← liftE (node.getInput "Smoothness"))
        pure (dset params "smoothness" sm)
      else pure params
    let params ← if dims == 1 || dims == 4 then do
        let w ← rec (← liftE (node.getInput "W"))
        pure (dset params "w" w)
      else pure params
    if dims != 1 then do
      let vs ← liftE (node.getInput "Vector")
      if vs.isLinked then do
        let v ← rec vs
        pure (.dict (dset params "vector" v))
      else pure (.dict params)
    else pure (.dict params)

/-- `convert_musgrave_texture_node` (textures.py lines 317-346). -/
def convert_musgrave_texture_node (ctx : Ctx) (rec : InSocket → ConvM DVal)
    (node : Node) (_out_socket : String) : ConvM DVal := do
  if !ctx.enable_musgrave then liftE (SceneWriter.color (.num (.float (1/2))))
  else do
    let dims ← liftE (dimensionsOf node.noise_dimensions)
    let scale ← rec (← liftE (node.getInput "Scale"))
    let detail ← rec (← liftE (node.getInput "Detail"))
    let dimension ← rec (← liftE (node.getInput "Dimension"))
    let lacunarity ← rec (← liftE (node.getInput "Lacunarity"))
    let offset ← rec (← liftE (node.getInput "Offset"))
    let gain ← rec (← liftE (node.getInput "Gain"))
    let params := [("type", DVal.str "musgrave"),
      ("fractal type", DVal.str ((node.musgrave_type.toLower).replace "_" " ")),
      ("scale", scale), ("detail", detail), ("dimension", dimension),
      ("lacunarity", lacunarity), ("offset", offset), ("gain", gain),
      ("dimensions", DVal.num (dims : ℚ))]
    let params ← if dims == 1 || dims == 4 then do
        let w ← rec (← liftE (node.getInput "W"))
        pure (dset params "w" w)
      else pure params
    if dims != 1 then do
      let vs ← liftE (node.getInput "Vector")
      if vs.isLinked then do
        let v ← rec vs
        pure (.dict (dset params "vector" v))
      else pure (.dict params)
    else pure (.dict params)

/-- `convert_layer_weight_node` (textures.py lines 349-376). -/
def convert_layer_weight_node (ctx : Ctx) (rec : InSocket → ConvM DVal)
    (node : Node) (out_socket : String) : ConvM DVal := do
  if !ctx.enable_layer_weight then
    liftE (SceneWriter.color (.num (.float (1/2))))
  else if out_socket == "Fresnel" then do
    let blendSock ← liftE (node.getInput "Blend")
    if blendSock.isLinked then
      warnM "Textured Blend values for Fresnel are not currently supported in Darts. Using the default value instead."
    else pure ()
    pure (.dict [("type", DVal.str "fresnel"),
      ("ior", DVal.num (1 / max (1 - blendSock.default_value.asFloat)
        (1 / 100000)))])
  else if out_socket == "Facing" then do
    let blendSock ← liftE (node.getInput "Blend")
    let blend ← rec blendSock
    pure (.dict [("type", DVal.str "facing"), ("blend", blend)])
  else
    ConvM.throw (.notImplemented
      "Unsupported Layer Weight type, expecting either Fresnel or Facing")

/-- `convert_mix_rgb_node` (textures.py lines 379-395). -/
def convert_mix_rgb_node (ctx : Ctx) (rec : InSocket → ConvM DVal)
    (node : Node) (_out_socket : String) : ConvM DVal := do
  if !ctx.enable_mix_rgb then liftE dummy_color
  else do
    let fac ← rec (← liftE (node.getInput "Fac"))
    let a ← rec (← liftE (node.getInput "Color1"))
    let b ← rec (← liftE (node.getInput "Color2"))
    pure (.dict [("type", DVal.str "mix"),
      ("blend type", DVal.str ((node.blend_type.toLower).replace "_" " ")),
      ("clamp result", DVal.bool node.use_clamp),
      ("factor", fac), ("a", a), ("b", b)])

/-- `convert_mix_node` (textures.py lines 398-420). -/
def convert_mix_node (ctx : Ctx) (rec : InSocket → ConvM DVal)
    (node : Node) (_out_socket : String) : ConvM DVal := do
  if !ctx.enable_mix_node then liftE dummy_color
  else if node.data_type != "RGBA" && node.data_type != "FLOAT" then
    ConvM.throw (.notImplemented
      "Only Color and Float mix nodes are currently supported in Darts")
  else do
    let fac ← rec (← liftE (node.getInput "Fac"))
    let a ← rec (← liftE (node.getInput "Color1"))
    let b ← rec (← liftE (node.getInput "Color2"))
    pure (.dict [("type", DVal.str "mix"),
      ("blend type", DVal.str ((node.blend_type.toLower).replace "_" " ")),
      ("clamp factor", DVal.bool node.clamp_factor),
      ("clamp result", DVal.bool node.clamp_result),
      ("factor", fac), ("a", a), ("b", b)])

/-- `convert_clamp_node` (textures.py lines 423-438). -/
def convert_clamp_node (ctx : Ctx) (rec : InSocket → ConvM DVal)
    (node : Node) (_out_socket : String) : ConvM DVal := do
  if !ctx.enable_clamp then liftE dummy_color
  else do
    let value ← rec (← liftE (node.getInput "Value"))
    let lo ← rec (← liftE (node.getInput "Min"))
    let hi ← rec (← liftE (node.getInput "Max"))
    pure (.dict [("type", DVal.str "clamp"),
      ("clamp type", DVal.str node.clamp_type.toLower),
      ("value", value), ("min", lo), ("max", hi)])

/-- `convert_fresnel_node` (textures.py lines 441-456). -/
def convert_fresnel_node (ctx : Ctx) (_rec : InSocket → ConvM DVal)
    (node : Node) (_out_socket : String) : ConvM DVal := do
  if !ctx.enable_fresnel then liftE (SceneWriter.color (.num (.float (1/2))))
  else do
    let iorSock ← liftE (node.getInput "IOR")
    if iorSock.isLinked then
      warnM "Textured IOR values are not supported in Darts. Using the default value instead."
    else pure ()
    pure (.dict [("type", DVal.str "fresnel"),
      ("ior", DVal.num iorSock.default_value.asFloat)])

/-- `convert_rgb_node` (textures.py lines 459-465). -/
def convert_rgb_node (_ctx : Ctx) (_rec : InSocket → ConvM DVal)
    (node : Node) (_out_socket : String) : ConvM DVal :=
  liftE (SceneWriter.color node.node_color)

/-- `convert_blackbody_node` (textures.py lines 468-480). -/
def convert_blackbody_node (ctx : Ctx) (rec : InSocket → ConvM DVal)
    (node : Node) (_out_socket : String) : ConvM DVal := do
  if !ctx.enable_blackbody then liftE dummy_color
  else do
    let temp ← rec (← liftE (node.getInput "Temperature"))
    pure (.dict [("type", DVal.str "blackbody"), ("temperature", temp)])

/-- `convert_wavelength_node` (textures.py lines 483-495). -/
def convert_wavelength_node (ctx : Ctx) (rec : InSocket → ConvM DVal)
    (node : Node) (_out_socket : String) : ConvM DVal := do
  if !ctx.enable_wavelength then liftE dummy_color
  else do
    let w ← rec (← liftE (node.getInput "Wavelength"))
    pure (.dict [("type", DVal.str "wavelength"), ("wavelength", w)])

/-- `convert_coord_texture_node` (textures.py lines 498-514). -/
def convert_coord_texture_node (ctx : Ctx) (_rec : InSocket → ConvM DVal)
    (node : Node) (out_socket : String) : ConvM DVal := do
  if !ctx.enable_coord then liftE dummy_color
  else do
    if node.has_object then
      warnM "Darts does not currently support texture coordinates from other objects. Ignoring."
    else pure ()
    pure (.dict [("type", DVal.str "coord"),
      ("coordinate", DVal.str out_socket.toLower)])

/-- `math.pi` as the exact value of the binary64 constant CPython uses. -/
def mathPi : ℚ := 884279719003555 / 281474976710656

/-- `math.degrees` (float rounding not modelled; no claim reads the value). -/
def pyDegrees (x : ℚ) : ℚ := x * 180 / mathPi

/-- Location/Rotation/Scale socket defaults are 3-vectors. -/
def PyRaw.asTriple : PyRaw → ℚ × ℚ × ℚ
  | .seq [.num a, .num b, .num c] => (a.toQ, b.toQ, c.toQ)
  | _ => (0, 0, 0)

/-- `SceneWriter.LRS_matrix` (scene.py lines 179-198). -/
def LRS_matrix (loc rot sca : ℚ × ℚ × ℚ) : DVal :=
  .list
    ((if sca ≠ (1, 1, 1) then
        [DVal.dict [("scale",
          DVal.list [.num sca.1, .num sca.2.1, .num sca.2.2])]]
      else []) ++
     (if rot ≠ (0, 0, 0) then
        [DVal.dict [("rotate",
           DVal.list [.num (pyDegrees rot.1), .num 1, .num 0, .num 0])],
         DVal.dict [("rotate",
           DVal.list [.num (pyDegrees rot.2.1), .num 0, .num 1, .num 0])],
         DVal.dict [("rotate",
           DVal.list [.num (pyDegrees rot.2.2), .num 0, .num 0, .num 1])]]
      else []) ++
     (if loc ≠ (0, 0, 0) then
        [DVal.dict [("translate",
          DVal.list [.num loc.1, .num loc.2.1, .num loc.2.2])]]
      else []))

/-- `convert_mapping_node` (textures.py lines 517-548).  When the mapping
capability is disabled this converter returns Python's `None`. -/
def convert_mapping_node (ctx : Ctx) (rec : InSocket → ConvM DVal)
    (node : Node) (_out_socket : String) : ConvM DVal := do
  if !ctx.enable_mapping then pure DVal.none
  else do
    let params := [("type", DVal.str "mapping"),
      ("vector type", DVal.str node.vector_type.toLower)]
    let locSock ← liftE (node.getInput "Location")
    let rotSock ← liftE (node.getInput "Rotation")
    let scaSock ← liftE (node.getInput "Scale")
    if locSock.isLinked || rotSock.isLinked || scaSock.isLinked then
      ConvM.throw (.notImplemented
        "Location, Rotation, and Scale inputs shouldnt be linked")
    else do
      let params := dset params "transform"
        (LRS_matrix locSock.default_value.asTriple rotSock.default_value.asTriple
          scaSock.default_value.asTriple)
      let vs ← liftE (node.getInput "Vector")
      if vs.isLinked then do
        let v ← rec vs
        pure (.dict (dset params "vector" v))
      else pure (.dict params)

/-- `convert_wireframe_texture_node` (textures.py lines 551-564). -/
def convert_wireframe_texture_node (ctx : Ctx) (rec : InSocket → ConvM DVal)
    (node : Node) (_out_socket : String) : ConvM DVal := do
  if !ctx.enable_wireframe then liftE dummy_color
  else do
    let size ← rec (← liftE (node.getInput "Size"))
    pure (.dict [("type", DVal.str "wireframe"), ("size", size),
      ("pixel size", DVal.bool node.use_pixel_size)])

/-- `convert_light_path_texture_node` (textures.py lines 567-573). -/
def convert_light_path_texture_node (_ctx : Ctx)
    (_rec : InSocket → ConvM DVal) (_node : Node) (out_socket : String) :
    ConvM DVal :=
  pure (.dict [("type", DVal.str "light path"),
    ("output", DVal.str out_socket.toLower)])

/-- `convert_color_attrib_node` (textures.py lines 576-585). -/
def convert_color_attrib_node (_ctx : Ctx) (_rec : InSocket → ConvM DVal)
    (_node : Node) (_out_socket : String) : ConvM DVal :=
  pure (.dict [("type", DVal.str "vertex colors")])

/-- `convert_val_to_rgb_node` (textures.py lines 588-612): color ramp. -/
def convert_val_to_rgb_node (ctx : Ctx) (rec : InSocket → ConvM DVal)
    (node : Node) (out_socket : String) : ConvM DVal := do
  if !ctx.enable_color_ramp then liftE dummy_color
  else do
    let fac ← rec (← liftE (node.getInput "Fac"))
    let elems ← liftE (node.ramp_elements.mapM (fun e => do
      let c ← SceneWriter.color e.2.1
      Except.ok (DVal.dict [("position", .num e.1), ("color", c),
        ("alpha", .num e.2.2)])))
    pure (.dict [("type", DVal.str "color ramp"), ("factor", fac),
      ("color mode", DVal.str node.ramp_color_mode.toLower),
      ("interpolation",
        DVal.str ((node.ramp_interpolation.toLower).replace "_" "-")),
      ("hue interpolation", DVal.str node.ramp_hue_interpolation.toLower),
      ("elements", DVal.list elems),
      ("output",
        DVal.str (if out_socket == "Alpha" then "float" else "color"))])

/-- `convert_separate_node` (textures.py lines 615-633).  Blender collection
access raises KeyError for a missing socket and socket objects are always
truthy, so the `Color` arm of the source conditional is the one taken. -/
def convert_separate_node (ctx : Ctx) (rec : InSocket → ConvM DVal)
    (node : Node) (out_socket : String) : ConvM DVal := do
  if !ctx.enable_separate then liftE dummy_color
  else do
    let input ← rec (← liftE (node.getInput "Color"))
    pure (.dict [("type", DVal.str "separate"), ("input", input),
      ("mode", DVal.str (if node.mode != "" then node.mode.toLower else "xyz")),
      ("component", DVal.str out_socket.toLower)])

/-- `convert_gradient_node` (textures.py lines 636-649). -/
def convert_gradient_node (ctx : Ctx) (rec : InSocket → ConvM DVal)
    (node : Node) (_out_socket : String) : ConvM DVal := do
  if !ctx.enable_gradient then liftE dummy_color
  else do
    let v ← rec (← liftE (node.getInput "Vector"))
    pure (.dict [("type", DVal.str "gradient"), ("vector", v),
      ("gradient type",
        DVal.str ((node.gradient_type.toLower).replace "_" " "))])

/-- `convert_math_node` (textures.py lines 652-674). -/
def convert_math_node (ctx : Ctx) (rec : InSocket → ConvM DVal)
    (node : Node) (_out_socket : String) : ConvM DVal := do
  if !ctx.enable_math then liftE dummy_color
  else do
    let params := [("type", DVal.str "math"),
      ("operation", DVal.str ((node.operation.toLower).replace "_" " ")),
      ("clamp", DVal.bool node.use_clamp)]
    let params ← if node.numInputs > 0 then do
        let a ← rec (← liftE (node.inputAt 0))
        pure (dset params "a" a)
      else pure params
    let params ← if node.numInputs > 1 then do
        let b ← rec (← liftE (node.inputAt 1))
        pure (dset params "b" b)
      else pure params
    let params ← if node.numInputs > 2 then do
        let c ← rec (← liftE (node.inputAt 2))
        pure (dset params "c" c)
      else pure params
    pure (.dict params)

/--
`convert_texture_node` (textures.py lines 677-726): resolve the socket via
`follow_link`; an unlinked socket yields its normalized literal default,
a linked one dispatches on the driving node's kind.  The image and
environment texture converters (which export image files) are outside this
embedding and dispatch to `PyErr.unmodeled`.
-/
def convert_texture_node (ctx : Ctx) (g : Graph) :
    ℕ → InSocket → ConvM DVal
  | 0, _ => ConvM.throw .recursionError
  | fuel + 1, socket => do
    if socket.isLinked then do
      let s ← liftE (follow_link g (fuel + 1) socket)
      let node ← liftE (linkedFromNode g s)
      let from_socket ← liftE (linkedFromSocket s)
      match node.bl_idname with
      | "ShaderNodeBlackbody" =>
        convert_blackbody_node ctx (convert_texture_node ctx g fuel) node from_socket
      | "ShaderNodeTexBrick" =>
        convert_brick_texture_node ctx (convert_texture_node ctx g fuel) node from_socket
      | "ShaderNodeClamp" =>
        convert_clamp_node ctx (convert_texture_node ctx g fuel) node from_socket
      | "ShaderNodeTexChecker" =>
        convert_checker_texture_node ctx (convert_texture_node ctx g fuel) node from_socket
      | "ShaderNodeTexCoord" =>
        convert_coord_texture_node ctx (convert_texture_node ctx g fuel) node from_socket
      | "ShaderNodeTexEnvironment" => ConvM.throw (.unmodeled node.bl_idname)
      | "ShaderNodeMapping" =>
        convert_mapping_node ctx (convert_texture_node ctx g fuel) node from_socket
      | "ShaderNodeFresnel" =>
        convert_fresnel_node ctx (convert_texture_node ctx g fuel) node from_socket
      | "ShaderNodeTexImage" => ConvM.throw (.unmodeled node.bl_idname)
      | "ShaderNodeLayerWeight" =>
        convert_layer_weight_node ctx (convert_texture_node ctx g fuel) node from_socket
      | "ShaderNodeMixRGB" =>
        convert_mix_rgb_node ctx (convert_texture_node ctx g fuel) node from_socket
      | "ShaderNodeMix" =>
        convert_mix_node ctx (convert_texture_node ctx g fuel) node from_socket
      | "ShaderNodeTexMusgrave" =>
        convert_musgrave_texture_node ctx (convert_texture_node ctx g fuel) node from_socket
      | "ShaderNodeTexNoise" =>
        convert_noise_texture_node ctx (convert_texture_node ctx g fuel) node from_socket
      | "ShaderNodeRGB" =>
        convert_rgb_node ctx (convert_texture_node ctx g fuel) node from_socket
      | "ShaderNodeTexVoronoi" =>
        convert_voronoi_texture_node ctx (convert_texture_node ctx g fuel) node from_socket
      | "ShaderNodeTexWave" =>
        convert_wave_texture_node ctx (convert_texture_node ctx g fuel) node from_socket
      | "ShaderNodeWavelength" =>
        convert_wavelength_node ctx (convert_texture_node ctx g fuel) node from_socket
      | "ShaderNodeTexWhiteNoise" =>
        convert_white_noise_texture_node ctx (convert_texture_node ctx g fuel) node from_socket
      | "ShaderNodeWireframe" =>
        convert_wireframe_texture_node ctx (convert_texture_node ctx g fuel) node from_socket
      | "ShaderNodeLightPath" =>
        convert_light_path_texture_node ctx (convert_texture_node ctx g fuel) node from_socket
      | "ShaderNodeVertexColor" =>
        convert_color_attrib_node ctx (convert_texture_node ctx g fuel) node from_socket
      | "ShaderNodeValToRGB" =>
        convert_val_to_rgb_node ctx (convert_texture_node ctx g fuel) node from_socket
      | "ShaderNodeSeparateXYZ" =>
        convert_separate_node ctx (convert_texture_node ctx g fuel) node from_socket
      | "ShaderNodeSeparateColor" =>
        convert_separate_node ctx (convert_texture_node ctx g fuel) node from_socket
      | "ShaderNodeTexGradient" =>
        convert_gradient_node ctx (convert_texture_node ctx g fuel) node from_socket
      | "ShaderNodeMath" =>
        convert_math_node ctx (convert_texture_node ctx g fuel) node from_socket
      | other =>
        ConvM.throw (.notImplemented
          ("Shader node type " ++ other ++ " is not supported"))
    else liftE (SceneWriter.color socket.default_value)

/-! ## Material node converters (materials.py) -/

/-- Python float division, raising ZeroDivisionError on a zero divisor. -/
def pyDiv (a b : ℚ) : Except PyErr ℚ :=
  if b = 0 then .error .zeroDivisionError else .ok (a / b)

/-- `make_two_sided` (materials.py lines 14-19). -/
def make_two_sided (ctx : Ctx) (bsdf : DVal) : ConvM DVal := do
  if ctx.force_two_sided then do
    infoM "Wrapping material in a two sided adapter."
    pure (.dict [("type", DVal.str "two sided"), ("both sides", bsdf)])
  else pure bsdf

/-- `convert_diffuse_material` (materials.py lines 22-32). -/
def convert_diffuse_material (ctx : Ctx) (rec : InSocket → ConvM DVal)
    (node : Node) : ConvM DVal := do
  let c ← rec (← liftE (node.getInput "Color"))
  let r ← rec (← liftE (node.getInput "Roughness"))
  make_two_sided ctx (.dict [("type", DVal.str "diffuse"), ("color", c),
    ("roughness", r)])

/-- The params-building body of `convert_glossy_material` (materials.py
lines 40-129): every branch contributes to `params`, which the trailing
`make_two_sided` call wraps. -/
def convert_glossy_params (ctx : Ctx) (rec : InSocket → ConvM DVal)
    (node : Node) : ConvM (List (String × DVal)) := do
  let roughSock ← liftE (node.getInput "Roughness")
  let roughness ← rec roughSock
  if ctx.glossy_mode == "rough conductor" then do
      let params ←
        if node.distribution == "SHARP" ||
           (!roughSock.isLinked && roughSock.default_value.asFloat ≤ 0) then
          pure [("type", DVal.str "conductor")]
        else do
          let dist ← liftE (lookupTable RoughnessMode node.distribution)
          let params := [("type", DVal.str ctx.glossy_mode),
            ("distribution", DVal.str dist)]
          let params := dset params "roughness" roughness
          let params ← if node.hasInput "Anisotropy" then do
              let a ← rec (← liftE (node.getInput "Anisotropy"))
              pure (dset params "anisotropy" a)
            else pure params
          let params ← if node.hasInput "Rotation" then do
              let r ← rec (← liftE (node.getInput "Rotation"))
              pure (dset params "rotation" r)
            else pure params
          pure params
      let c ← rec (← liftE (node.getInput "Color"))
      pure (dset params "color" c)
  else if ctx.glossy_mode == "blinn-phong" || ctx.glossy_mode == "phong" then do
      if roughSock.isLinked then
        ConvM.throw (.notImplemented
          "Phong and Blinn-Phong roughness parameter doesnt support textures in Darts")
      else do
        let alpha := roughSock.default_value.asFloat ^ 2
        let e0 ← liftE (pyDiv 2 (alpha * alpha))
        let exponent := max (e0 - 1) 0
        let exponent :=
          if ctx.glossy_mode == "phong" then exponent / 4 else exponent
        let params ←
          if node.distribution == "SHARP" || exponent ≤ 0 then
            pure [("type", DVal.str "metal"), ("roughness", DVal.num 0)]
          else do
            let dist ← liftE (lookupTable RoughnessMode node.distribution)
            pure [("type", DVal.str ctx.glossy_mode),
              ("exponent", DVal.num exponent), ("distribution", DVal.str dist)]
        let c ← rec (← liftE (node.getInput "Color"))
        pure (dset params "color" c)
  else if ctx.glossy_mode == "metal" then do
    let r2 ← if node.distribution != "SHARP" then rec roughSock
      else pure (DVal.num 0)
    let c ← rec (← liftE (node.getInput "Color"))
    pure [("type", DVal.str ctx.glossy_mode), ("roughness", r2), ("color", c)]
  else pure []

/-- `convert_glossy_material` (materials.py lines 35-131). -/
def convert_glossy_material (ctx : Ctx) (rec : InSocket → ConvM DVal)
    (node : Node) : ConvM DVal := do
  let params ← convert_glossy_params ctx rec node
  make_two_sided ctx (.dict params)

/-- `convert_glass_material` (materials.py lines 134-167).  Note: no
two-sided wrap is applied to glass. -/
def convert_glass_material (_ctx : Ctx) (rec : InSocket → ConvM DVal)
    (node : Node) : ConvM DVal := do
  let iorSock ← liftE (node.getInput "IOR")
  if iorSock.isLinked then
    warnM "Textured IOR values are not supported in Darts. Using the default value instead."
  else pure ()
  let ior := iorSock.default_value.asFloat
  let roughness ← rec (← liftE (node.getInput "Roughness"))
  let params ←
    if roughness.truthy && node.distribution != "SHARP" then do
      let dist ← liftE (lookupTable RoughnessMode node.distribution)
      pure [("type", DVal.str "rough dielectric"), ("roughness", roughness),
        ("distribution", DVal.str dist)]
    else
      pure [("type",
        DVal.str (if ior == 1 then "thin dielectric" else "dielectric"))]
  let params := dset params "ior" (DVal.num ior)
  let c ← rec (← liftE (node.getInput "Color"))
  let params := dset params "reflectance" c
  let params := dset params "transmittance" c
  pure (.dict params)

/-- `convert_emission_material` (materials.py lines 170-197). -/
def convert_emission_material (_ctx : Ctx) (node : Node) : ConvM DVal := do
  let strengthSock ← liftE (node.getInput "Strength")
  if strengthSock.isLinked then
    ConvM.throw (.notImplemented "Only default emitter strength value is supported")
  else do
    let strength := strengthSock.default_value.asFloat
    let colorSock ← liftE (node.getInput "Color")
    if colorSock.isLinked then
      ConvM.throw (.notImplemented "Only default emitter color is supported")
    else do
      let chans ← liftE colorSock.default_value.channels
      let radiance := chans.map (fun x => x * strength)
      if radiance.sum = 0 then do
        warnM "  Emitter has zero emission, this may cause Darts to fail! Creating a diffuse material instead."
        let c ← liftE (SceneWriter.color (.num (.int 0)))
        pure (.dict [("type", DVal.str "diffuse"), ("color", c)])
      else do
        let c ← liftE (SceneWriter.color
          (.seq (radiance.map (fun q => .num (.float q)))))
        pure (.dict [("type", DVal.str "emission"), ("color", c)])

/-- `convert_transparent_material` (materials.py lines 200-208). -/
def convert_transparent_material (_ctx : Ctx) (rec : InSocket → ConvM DVal)
    (node : Node) : ConvM DVal := do
  let c ← rec (← liftE (node.getInput "Color"))
  pure (.dict [("type", DVal.str "transparent"), ("color", c)])

/-- `convert_mix_material` (materials.py lines 211-227).  `recMat` is the
recursive call `cycles_surface_to_dict(ctx, mat)` with no name tag. -/
def convert_mix_material (_ctx : Ctx) (g : Graph) (fuel : ℕ)
    (recTex : InSocket → ConvM DVal) (recMat : Node → ConvM DVal)
    (node : Node) : ConvM DVal := do
  let s1 ← liftE (node.inputAt 1)
  let s2 ← liftE (node.inputAt 2)
  if !s1.isLinked || !s2.isLinked then
    ConvM.throw (.notImplemented "Mix shader is not linked to two materials")
  else do
    let f1 ← liftE (follow_link g fuel s1)
    let mat_I ← liftE (linkedFromNode g f1)
    let f2 ← liftE (follow_link g fuel s2)
    let mat_II ← liftE (linkedFromNode g f2)
    let fac ← recTex (← liftE (node.getInput "Fac"))
    let a ← recMat mat_I
    let b ← recMat mat_II
    pure (.dict [("type", DVal.str "mix"), ("factor", fac), ("a", a),
      ("b", b)])

/-- `convert_add_material` (materials.py lines 230-245). -/
def convert_add_material (_ctx : Ctx) (g : Graph) (fuel : ℕ)
    (recMat : Node → ConvM DVal) (node : Node) : ConvM DVal := do
  let s1 ← liftE (node.inputAt 1)
  let s2 ← liftE (node.inputAt 2)
  if !s1.isLinked || !s2.isLinked then
    ConvM.throw (.notImplemented "Add shader is not linked to two materials")
  else do
    let f1 ← liftE (follow_link g fuel s1)
    let mat_I ← liftE (linkedFromNode g f1)
    let f2 ← liftE (follow_link g fuel s2)
    let mat_II ← liftE (linkedFromNode g f2)
    let a ← recMat mat_I
    let b ← recMat mat_II
    pure (.dict [("type", DVal.str "add"), ("a", a), ("b", b)])

/-- The tail of `wrap_with_bump_or_normal_map` (materials.py lines 284-290):
move the name from the nested descriptor onto the wrapper, then attach the
nested descriptor. -/
def finish_wrapper (nested : DVal) (wrapper : List (String × DVal)) :
    ConvM DVal := do
  let nd ← liftE nested.asDict
  let pair :=
    if dmem nd "name" then
      match dgetl nd "name" with
      | some v => (dset wrapper "name" v, dpop nd "name")
      | Option.none => (wrapper, nd)
    else (wrapper, nd)
  infoM "Wrapping material."
  pure (.dict (dset pair.1 "nested" (.dict pair.2)))

/-- `wrap_with_bump_or_normal_map` (materials.py lines 248-292). -/
def wrap_with_bump_or_normal_map (ctx : Ctx) (g : Graph) (fuel : ℕ)
    (recTex : InSocket → ConvM DVal) (node : Node) (nested : DVal) :
    ConvM DVal := do
  if (ctx.use_normal_maps || ctx.use_bump_maps) && node.hasInput "Normal" then do
    let nsock ← liftE (node.getInput "Normal")
    if nsock.isLinked then do
      let fs ← liftE (follow_link g fuel nsock)
      let n ← liftE (linkedFromNode g fs)
      if n.bl_idname == "ShaderNodeNormalMap" then
        if !ctx.use_normal_maps then pure nested
        else if n.space != "TANGENT" then
          ConvM.throw (.notImplemented
            "Darts only supports tangent-space normal maps")
        else do
          let normals ← recTex (← liftE (n.getInput "Color"))
          let strengthSock ← liftE (n.getInput "Strength")
          finish_wrapper nested [("type", DVal.str "normal map"),
            ("normals", normals),
            ("strength", DVal.num strengthSock.default_value.asFloat)]
      else if n.bl_idname == "ShaderNodeBump" then
        if !ctx.use_bump_maps then pure nested
        else do
          let height ← recTex (← liftE (n.getInput "Height"))
          let strength ← recTex (← liftE (n.getInput "Strength"))
          let distance ← recTex (← liftE (n.getInput "Distance"))
          finish_wrapper nested [("type", DVal.str "bump map"),
            ("height", height), ("strength", strength),
            ("distance", distance), ("invert", DVal.bool n.invert)]
      else
        ConvM.throw (.notImplemented
          "Only normal map and bump nodes supported for Normal input")
    else pure nested
  else pure nested

/-- Python `pow(x, 0.5)` on a float always succeeds with some float; its
value is irrelevant to every claim because the enclosing single-argument
`max` raises TypeError for any float argument (see `pyMaxOfSingleFloat`),
so the numeric result is not modelled. -/
def pyPowHalf (_x : ℚ) : ℚ := 0

/-- CPython `max` with a single float argument: `max(x)` iterates its sole
argument, and a float is not iterable, so this raises TypeError whatever
the value of `x`. -/
def pyMaxOfSingleFloat (_arg : ℚ) : Except PyErr ℚ :=
  .error (.typeError "float object is not iterable")

/-- `convert_volume_scatter_node` (materials.py lines 295-315). -/
def convert_volume_scatter_node (_ctx : Ctx) (node : Node) : ConvM DVal := do
  let colorSock ← liftE (node.getInput "Color")
  let densitySock ← liftE (node.getInput "Density")
  let anisoSock ← liftE (node.getInput "Anisotropy")
  if colorSock.isLinked || densitySock.isLinked || anisoSock.isLinked then
    ConvM.throw (.notImplemented
      "Only homogeneous volume scattering nodes are currently supported")
  else do
    let albedo ← liftE (SceneWriter.color colorSock.default_value)
    let total ← liftE (SceneWriter.color densitySock.default_value)
    pure (.dict [("type", DVal.str "homogeneous"), ("albedo", albedo),
      ("total", total), ("real fraction", DVal.num 1),
      ("phase function", DVal.dict [("type", DVal.str "hg"),
        ("g", DVal.num anisoSock.default_value.asFloat)])])

/-- `convert_volume_absorption_node` (materials.py lines 318-337).  The
`total` entry is computed by `max(1.0 - pow(max(x, 0.0), 0.5))` per channel:
a single-argument `max` over a float. -/
def convert_volume_absorption_node (_ctx : Ctx) (node : Node) : ConvM DVal := do
  let colorSock ← liftE (node.getInput "Color")
  let densitySock ← liftE (node.getInput "Density")
  if colorSock.isLinked || densitySock.isLinked then
    ConvM.throw (.notImplemented
      "Only homogeneous volume absorption nodes are currently supported")
  else do
    let chans ← liftE colorSock.default_value.channels
    let total ← liftE (chans.mapM (fun x =>
      pyMaxOfSingleFloat (1 - pyPowHalf (max x 0))))
    pure (.dict [("type", DVal.str "homogeneous"), ("albedo", DVal.num 0),
      ("total", DVal.list (total.map DVal.num)),
      ("real fraction", DVal.num 1),
      ("phase function", DVal.dict [("type", DVal.str "isotropic")])])

/-- Channel list of a color descriptor, for the numpy arithmetic in the vdb
converter (no claim reads these values). -/
def asQList : DVal → List ℚ
  | .list l => l.filterMap (fun v =>
      match v with
      | .num q => some q
      | _ => Option.none)
  | .num q => [q]
  | _ => []

/-- `convert_volume_vdb_node` (materials.py lines 340-377). -/
def convert_volume_vdb_node (_ctx : Ctx) (node : Node) : ConvM DVal := do
  infoM "Converting vdb node"
  let colorSock ← liftE (node.getInput "Color")
  let densitySock ← liftE (node.getInput "Density")
  let absorbSock ← liftE (node.getInput "Absorption Color")
  if colorSock.isLinked || densitySock.isLinked || absorbSock.isLinked then
    ConvM.throw (.notImplemented
      "Textured density, color, or absorption colors are not supported by the nanovdb medium")
  else do
    let scatterColor ← liftE (SceneWriter.color colorSock.default_value)
    let absorptionColor ← liftE (SceneWriter.color absorbSock.default_value)
    let sc := asQList scatterColor
    let ac := asQList absorptionColor
    let absorptionCoeff :=
      List.zipWith (fun a b => max (1 - a) 0 * max (1 - b) 0) sc ac
    let anisoSock ← liftE (node.getInput "Anisotropy")
    let params := [("type", DVal.str "nanovdb"),
      ("density", DVal.num densitySock.default_value.asFloat),
      ("sigma_s", DVal.list (sc.map DVal.num)),
      ("sigma_a", DVal.list (absorptionCoeff.map DVal.num)),
      ("phase function", DVal.dict [("type", DVal.str "hg"),
        ("g", DVal.num anisoSock.default_value.asFloat)])]
    let gridSock ← liftE (node.getInput "Density Attribute")
    pure (.dict (dset params "gridname"
      (DVal.str gridSock.default_value.asString)))

/-- `cycles_volume_to_dict` (materials.py lines 380-404). -/
def cycles_volume_to_dict (ctx : Ctx) (node : Node) (name : Option String) :
    ConvM DVal := do
  infoM "Adding volume"
  let params : List (String × DVal) :=
    match name with
    | some n => [("name", DVal.str (material_name n))]
    | Option.none => []
  let sub ←
    match node.bl_idname with
    | "ShaderNodeVolumeScatter" => convert_volume_scatter_node ctx node
    | "ShaderNodeVolumeAbsorption" => convert_volume_absorption_node ctx node
    | "ShaderNodeVolumePrincipled" => convert_volume_vdb_node ctx node
    | other => ConvM.throw (.notImplemented
        ("Node type: " ++ other ++ " is not supported in Darts"))
  let subd ← liftE sub.asDict
  pure (.dict (dupdate params subd))

/-- `cycles_surface_to_dict` (materials.py lines 407-434): dispatch a surface
node to its converter, prefix the optional name, then apply the bump/normal
map wrap.  The fuel bounds the mix/add and texture recursion depth. -/
def cycles_surface_to_dict (ctx : Ctx) (g : Graph) :
    ℕ → Node → Option String → ConvM DVal
  | 0, _, _ => ConvM.throw .recursionError
  | fuel + 1, node, name => do
    let params : List (String × DVal) :=
      match name with
      | some n => [("name", DVal.str (material_name n))]
      | Option.none => []
    let sub ←
      match node.bl_idname with
      | "ShaderNodeBsdfDiffuse" =>
        convert_diffuse_material ctx (convert_texture_node ctx g fuel) node
      | "ShaderNodeBsdfGlossy" =>
        convert_glossy_material ctx (convert_texture_node ctx g fuel) node
      | "ShaderNodeBsdfAnisotropic" =>
        convert_glossy_material ctx (convert_texture_node ctx g fuel) node
      | "ShaderNodeBsdfGlass" =>
        convert_glass_material ctx (convert_texture_node ctx g fuel) node
      | "ShaderNodeMixShader" =>
        convert_mix_material ctx g fuel (convert_texture_node ctx g fuel)
          (fun nd => cycles_surface_to_dict ctx g fuel nd Option.none) node
      | "ShaderNodeAddShader" =>
        convert_add_material ctx g fuel
          (fun nd => cycles_surface_to_dict ctx g fuel nd Option.none) node
      | "ShaderNodeEmission" => convert_emission_material ctx node
      | "ShaderNodeBsdfTransparent" =>
        convert_transparent_material ctx (convert_texture_node ctx g fuel) node
      | other => ConvM.throw (.notImplemented
          ("Node type: " ++ other ++ " is not supported in Darts"))
    let subd ← liftE sub.asDict
    wrap_with_bump_or_normal_map ctx g fuel (convert_texture_node ctx g fuel)
      node (.dict (dupdate params subd))

/-- `get_dummy_material` (materials.py lines 437-444). -/
def get_dummy_material (_ctx : Ctx) (name : Option String) : ConvM DVal := do
  let c ← liftE (SceneWriter.color
    (.seq [.num (.float 1), .num (.float 0), .num (.float (3/10))]))
  let params := [("type", DVal.str "diffuse"), ("color", c)]
  match name with
  | some n => pure (.dict (dset params "name" (DVal.str (material_name n))))
  | Option.none => pure (.dict params)

/-! ## Per-material conversion and the export loop
(materials.py `convert_material`/`export`, scene.py `SceneWriter`) -/

/-- A Blender material datablock as the exporter reads it. -/
structure BMat where
  name_full : String := ""
  users : ℕ := 1
  use_nodes : Bool := true
  node_tree : Graph := []
  diffuse_color : PyRaw := .seq []
  deriving DecidableEq, Repr

/-- `mesh.data.materials`. -/
structure MeshData where
  materials : List (Option BMat) := []
  deriving DecidableEq, Repr

/-- A scene object carrying materials. -/
structure BMesh where
  name_full : String := ""
  mesh_type : String := "MESH"
  data : Option MeshData := Option.none
  deriving DecidableEq, Repr

/-- The `try:` block of `convert_material` (materials.py lines 453-489). -/
def convert_material_body (ctx : Ctx) (fuel : ℕ) (b_mat : BMat) :
    ConvM (DVal × Option DVal) := do
  let nodes := b_mat.node_tree
  if !(Graph.hasNode nodes "Material Output") then
    ConvM.throw (.notImplemented "Cannot find material output node")
  else do
    let output_node ← liftE (Graph.findE nodes "Material Output")
    let mat_params ←
      if output_node.hasInput "Surface" then do
        let ssock ← liftE (output_node.getInput "Surface")
        if ssock.isLinked then do
          let fs ← liftE (follow_link nodes fuel ssock)
          let surface_node ← liftE (linkedFromNode nodes fs)
          cycles_surface_to_dict ctx nodes fuel surface_node
            (some b_mat.name_full)
        else pure (DVal.dict [("type", DVal.str "transparent")])
      else pure (DVal.dict [("type", DVal.str "transparent")])
    let res ←
      if output_node.hasInput "Volume" then do
        let vsock ← liftE (output_node.getInput "Volume")
        if vsock.isLinked then do
          let fv ← liftE (follow_link nodes fuel vsock)
          let volume_node ← liftE (linkedFromNode nodes fv)
          let medium_name := b_mat.name_full ++ " volume"
          let media_params ← cycles_volume_to_dict ctx volume_node
            (some medium_name)
          let mat2 ← liftE (mat_params.setItem "interior medium"
            (DVal.str medium_name))
          pure (mat2, some media_params)
        else pure (mat_params, Option.none)
      else pure (mat_params, Option.none)
    if output_node.hasInput "Displacement" then do
      let dsock ← liftE (output_node.getInput "Displacement")
      if dsock.isLinked then
        warnM "Displacement maps are not supported. Consider converting them to bump maps first"
      else pure ()
    else pure ()
    pure res

/-- `convert_material` (materials.py lines 447-500): the named boundary.
Only NotImplementedError is caught; the handler reports a warning and
substitutes the dummy material. -/
def convert_material (ctx : Ctx) (fuel : ℕ) (b_mat : BMat) :
    ConvM (DVal × Option DVal) :=
  if b_mat.use_nodes then
    catchNIE (convert_material_body ctx fuel b_mat)
      (fun _msg => do
        warnM "Export of material failed. Exporting a dummy material instead."
        let d ← get_dummy_material ctx (some b_mat.name_full)
        pure (d, Option.none))
  else do
    let d ← get_dummy_material ctx (some b_mat.name_full)
    let c ← liftE (SceneWriter.color b_mat.diffuse_color)
    let d2 ← liftE (d.setItem "color" c)
    pure (d2, Option.none)

/-- The accumulator of the CONVERT-mode export loop: the emitted material
and medium descriptors, `ctx.already_exported`, and a specification ghost
recording, in order, the keys for which `convert_material` was invoked. -/
structure ExportAcc where
  materials : List DVal
  media : List DVal
  cache : List (String × DVal)
  trace : List String

/-- One material slot of the loop body (materials.py lines 528-554). -/
def export_mat_step (ctx : Ctx) (fuel : ℕ) (acc : ExportAcc)
    (omat : Option BMat) : ConvM ExportAcc := do
  match omat with
  | Option.none => pure acc
  | some mat =>
    if mat.name_full == "Dots Stroke" || mat.users == 0 then pure acc
    else do
      let mat_id := "mat-" ++ mat.name_full
      if dmem acc.cache mat_id then pure acc
      else do
        let conv ← convert_material ctx fuel mat
        pure { acc with
          trace := acc.trace ++ [mat_id],
          cache := dset acc.cache mat_id conv.1,
          materials := acc.materials ++ [conv.1],
          media :=
            match conv.2 with
            | some mp => if mp.truthy then acc.media ++ [mp] else acc.media
            | Option.none => acc.media }

/-- One mesh of the loop (materials.py lines 522-527). -/
def export_mesh_step (ctx : Ctx) (fuel : ℕ) (acc : ExportAcc)
    (mesh : BMesh) : ConvM ExportAcc :=
  match mesh.data with
  | Option.none => pure acc
  | some data =>
    if data.materials.isEmpty then pure acc
    else data.materials.foldlM (export_mat_step ctx fuel) acc

/-- The CONVERT-mode loop of `export` (materials.py lines 521-554). -/
def export_convert_loop (ctx : Ctx) (fuel : ℕ) (meshes : List BMesh)
    (acc : ExportAcc) : ConvM ExportAcc :=
  meshes.foldlM (export_mesh_step ctx fuel) acc

/-- `export` (materials.py lines 503-556).  `all_materials` stands for the
global `bpy.data.materials` read in DIFFUSE mode; `ctx.already_exported`
is empty at the start of a run (scene.py line 124). -/
def materials_export (ctx : Ctx) (fuel : ℕ) (all_materials : List BMat)
    (meshes : List BMesh) : ConvM (List DVal × List DVal) := do
  infoM "Writing default diffuse material"
  let materials : List DVal := [.dict [("type", DVal.str "diffuse"),
    ("name", DVal.str "default"), ("color", DVal.num (1/5))]]
  let media : List DVal := []
  if ctx.material_mode == "DIFFUSE" then do
    let materials ← all_materials.foldlM (fun acc mat => do
      if mat.name_full == "Dots Stroke" || mat.users == 0 then pure acc
      else do
        let params ← get_dummy_material ctx (some mat.name_full)
        pure (acc ++ [params])) materials
    pure (materials, media)
  else if ctx.material_mode == "CONVERT" then do
    let acc ← export_convert_loop ctx fuel meshes ⟨materials, media, [], []⟩
    pure (acc.materials, acc.media)
  else pure (materials, media)

/-! ## Claim C8: the value normalizer -/

/-- Numeric entries satisfy the float/int/tuple check. -/
theorem isColorEntry_of_isNumber {e : PyElem} (h : e.isNumber = true) :
    e.isColorEntry = true := by
  cases e <;> simp_all [PyElem.isNumber, PyElem.isColorEntry]

theorem any_notColorEntry_eq_false {l : List PyElem}
    (h : ∀ e ∈ l, e.isColorEntry = true) :
    (l.any fun x => !x.isColorEntry) = false := by
  induction l with
  | nil => rfl
  | cons a as ih =>
    simp only [List.any_cons, Bool.or_eq_false_iff]
    exact ⟨by rw [h a (by simp)]; rfl, ih (fun e he => h e (by simp [he]))⟩

/-- C8 helper: a homogeneous float sequence passes both entry checks. -/
theorem float_seq_checks (qs : List ℚ) :
    ((qs.map fun q => PyElem.num (.float q)).any fun x => !x.isColorEntry)
      = false ∧
    adjacentTypeMismatch (qs.map fun q => PyElem.num (.float q)) = false := by
  constructor
  · exact any_notColorEntry_eq_false (by
      intro e he
      rcases List.mem_map.mp he with ⟨q, -, rfl⟩
      rfl)
  · induction qs with
    | nil => rfl
    | cons a as ih =>
      cases as with
      | nil => rfl
      | cons b bs =>
        simp only [List.map_cons] at ih ⊢
        simpa [adjacentTypeMismatch, PyElem.pytype] using ih

/-- C8 helper, shared with the emission proof: `SceneWriter.color` on a
3- or 4-element float sequence keeps the first three channels. -/
theorem color_float_seq_34 (qs : List ℚ) (h : qs.length = 3 ∨ qs.length = 4) :
    SceneWriter.color (.seq (qs.map fun q => PyElem.num (.float q))) =
      Except.ok (.list ((qs.take 3).map DVal.num)) := by
  match qs, h with
  | [a, b, c], _ => rfl
  | [a, b, c, d], _ => rfl
  | [], h => simp at h
  | [a], h => simp at h
  | [a, b], h => simp at h
  | a :: b :: c :: d :: e :: rest, h =>
    simp only [List.length_cons] at h
    omega

/--
C8 (corrected).  The value normalizer `SceneWriter.color`:
(1) returns a plain number unchanged;
(2) collapses a one-element numeric sequence to its element;
(3) keeps the first three entries of a homogeneous numeric sequence of
    length 3 or 4 (the alpha channel of a length-4 value is dropped);
(4) raises ValueError on a sequence with adjacent entries of different
    concrete types;
(5) raises ValueError on a number-headed homogeneous sequence whose length
    is not 1, 3 or 4;
(6) but — contrary to the claim — a homogeneous sequence of tuples of any
    length does not fail: the numeric branch is skipped and the function
    falls through to `return 0`.
-/
theorem C8_color_normalizer_amended :
    (∀ n : PyNum, SceneWriter.color (.num n) = Except.ok (.num n.toQ))
    ∧ (∀ n : PyNum,
        SceneWriter.color (.seq [.num n]) = Except.ok (.num n.toQ))
    ∧ (∀ qs : List ℚ, qs.length = 3 ∨ qs.length = 4 →
        SceneWriter.color (.seq (qs.map fun q => PyElem.num (.float q))) =
          Except.ok (.list ((qs.take 3).map DVal.num)))
    ∧ (∀ l : List PyElem, (∀ e ∈ l, e.isColorEntry = true) →
        adjacentTypeMismatch l = true →
        SceneWriter.color (.seq l) =
          Except.error (.valueError "Mixed types in color entry"))
    ∧ (∀ (n : PyNum) (rest : List PyElem),
        (∀ e ∈ PyElem.num n :: rest, e.isColorEntry = true) →
        adjacentTypeMismatch (PyElem.num n :: rest) = false →
        rest.length + 1 ≠ 1 → rest.length + 1 ≠ 3 → rest.length + 1 ≠ 4 →
        SceneWriter.color (.seq (PyElem.num n :: rest)) =
          Except.error (.valueError "Expected color items to be 1,3 or 4"))
    ∧ (∀ (t : List PyNum) (rest : List PyElem),
        (∀ e ∈ PyElem.tup t :: rest, e.isColorEntry = true) →
        adjacentTypeMismatch (PyElem.tup t :: rest) = false →
        SceneWriter.color (.seq (PyElem.tup t :: rest)) =
          Except.ok (.num 0)) := by
  refine ⟨fun n => rfl, fun n => rfl, color_float_seq_34, ?_, ?_, ?_⟩
  · intro l hok hmm
    have h1 := any_notColorEntry_eq_false hok
    cases l with
    | nil => simp [adjacentTypeMismatch] at hmm
    | cons a as =>
      simp only [SceneWriter.color, h1, Bool.false_eq_true, if_false, hmm,
        if_true]
  · intro n rest hok hmm h1 h3 h4
    have hany := any_notColorEntry_eq_false hok
    have hlen : ((PyElem.num n :: rest).length == 3
        || (PyElem.num n :: rest).length == 4) = false := by
      simp only [List.length_cons, Bool.or_eq_false_iff, beq_eq_false_iff_ne]
      omega
    have hlen1 : ((PyElem.num n :: rest).length == 1) = false := by
      simp only [List.length_cons, beq_eq_false_iff_ne]
      omega
    simp only [SceneWriter.color, hany, Bool.false_eq_true, if_false, hmm,
      hlen, hlen1]
  · intro t rest hok hmm
    have hany := any_notColorEntry_eq_false hok
    simp only [SceneWriter.color, hany, Bool.false_eq_true, if_false, hmm]

/-- C8 witness: the amended normalizer behaviour at concrete inputs. -/
theorem C8_witness :
    SceneWriter.color (.num (.int 5)) = Except.ok (.num 5)
    ∧ SceneWriter.color (.seq [.num (.float (1/2))]) =
        Except.ok (.num (1/2))
    ∧ SceneWriter.color (.seq ([1, 2, 3, 4].map
        (fun q => PyElem.num (.float q)))) =
        Except.ok (.list [.num 1, .num 2, .num 3])
    ∧ SceneWriter.color (.seq [.num (.int 1), .num (.float 2)]) =
        Except.error (.valueError "Mixed types in color entry")
    ∧ SceneWriter.color (.seq [.num (.float 1), .num (.float 2)]) =
        Except.error (.valueError "Expected color items to be 1,3 or 4")
    ∧ SceneWriter.color (.seq [PyElem.tup [.float 1], PyElem.tup []]) =
        Except.ok (.num 0) := by
  refine ⟨?_, ?_, ?_, ?_, ?_, ?_⟩
  · have h := C8_color_normalizer_amended.1 (.int 5)
    simpa using h
  · have h := C8_color_normalizer_amended.2.1 (.float (1/2))
    simpa using h
  · have h := C8_color_normalizer_amended.2.2.1 [1, 2, 3, 4] (by decide)
    simpa using h
  · exact C8_color_normalizer_amended.2.2.2.1 [.num (.int 1), .num (.float 2)]
      (by decide) (by decide)
  · exact C8_color_normalizer_amended.2.2.2.2.1 (.float 1) [.num (.float 2)]
      (by decide) (by decide) (by decide) (by decide) (by decide)
  · exact C8_color_normalizer_amended.2.2.2.2.2 [.float 1] [PyElem.tup []]
      (by decide) (by decide)

/-- C8 counterexample: a length-2 homogeneous sequence of tuples does not
fail with an error — the normalizer returns the literal 0 — although the
claim requires every sequence of length other than 1, 3 or 4 to fail. -/
theorem C8_counterexample :
    SceneWriter.color (.seq [PyElem.tup [.float 1, .float 2],
      PyElem.tup [.float 3, .float 4]]) = Except.ok (.num 0)
    ∧ [PyElem.tup [.float 1, .float 2],
       PyElem.tup [.float 3, .float 4]].length = 2 :=
  ⟨rfl, rfl⟩

/-! ## Claim C9: socket resolution through reroute chains -/

/-- An acyclic reroute chain: `ResolvesIn g n s t` says that following
exactly `n` reroute indirections from socket `s` reaches socket `t`,
which is not driven by a reroute node. -/
inductive ResolvesIn (g : Graph) : ℕ → InSocket → InSocket → Prop where
  | done (s : InSocket) (h : isRerouteDriven g s = false) : ResolvesIn g 0 s s
  | step (n : ℕ) (s s2 t : InSocket) (h : rerouteStep g s = some s2)
      (h2 : ResolvesIn g n s2 t) : ResolvesIn g (n + 1) s t

/--
C9 (corrected, termination half).  On a socket whose reroute chain is
acyclic (witnessed by a `ResolvesIn` derivation of length `n`), `follow_link`
terminates within any recursion budget exceeding `n` and returns the first
socket that is not driven by a reroute node.
-/
theorem C9_follow_link_amended (g : Graph) (n : ℕ) (s t : InSocket)
    (hres : ResolvesIn g n s t) :
    ∀ fuel : ℕ, n < fuel →
      follow_link g fuel s = Except.ok t ∧ isRerouteDriven g t = false := by
  induction hres with
  | done s h =>
    intro fuel hf
    match fuel, hf with
    | f + 1, _ =>
      refine ⟨?_, h⟩
      rw [follow_link]
      unfold isRerouteDriven at h
      rcases hlink : s.link with - | ref
      · simp only [hlink]
      · simp only [hlink] at h ⊢
        rcases hfind : Graph.find? g ref.from_node with - | nd
        · simp only [hfind]
        · simp only [hfind] at h ⊢
          rw [if_neg (by simp [h])]
  | step m s s2 t h h2 ih =>
    intro fuel hf
    match fuel, hf with
    | f + 1, hf =>
      have hmf : m < f := by omega
      obtain ⟨ih1, ih2⟩ := ih f hmf
      refine ⟨?_, ih2⟩
      rw [follow_link]
      unfold rerouteStep at h
      rcases hlink : s.link with - | ref
      · simp only [hlink] at h
        exact Option.noConfusion h
      · simp only [hlink] at h ⊢
        rcases hfind : Graph.find? g ref.from_node with - | nd
        · simp only [hfind] at h
          exact Option.noConfusion h
        · simp only [hfind] at h ⊢
          by_cases hre : (nd.bl_idname == "NodeReroute") = true
          · simp only [hre, if_true] at h ⊢
            rcases hget : nd.inputs.get? 0 with - | p
            · simp only [hget] at h
              exact Option.noConfusion h
            · simp only [hget] at h ⊢
              simp only [Option.some.injEq] at h
              rw [h]
              exact ih1
          · rw [Bool.not_eq_true] at hre
            simp only [hre] at h
            simp at h

/-- C9 witness: a two-step chain through one reroute node resolves, within
recursion budget 3, to the reroute's own (unlinked) input socket. -/
def w9sock2 : InSocket := {}

def w9sock1 : InSocket := { link := some ⟨"rr", "Output"⟩ }

def w9graph : Graph :=
  [("rr", { bl_idname := "NodeReroute", inputs := [("Input", w9sock2)] })]

theorem C9_witness :
    follow_link w9graph 3 w9sock1 = Except.ok w9sock2 ∧
      isRerouteDriven w9graph w9sock2 = false :=
  C9_follow_link_amended w9graph 1 w9sock1 w9sock2
    (ResolvesIn.step 0 w9sock1 w9sock2 w9sock2 rfl
      (ResolvesIn.done w9sock2 rfl)) 3 (by omega)

/-- A socket that the resolver never finishes with: for every recursion
budget the run ends in the recursion-limit error, never in any other
result. -/
def followLinkDiverges (g : Graph) (s : InSocket) : Prop :=
  ∀ fuel : ℕ, follow_link g fuel s = Except.error PyErr.recursionError

/-- The one-node cyclic reroute chain: the reroute node's input is driven
by its own output. -/
def cycSocket : InSocket := { link := some ⟨"r", "Output"⟩ }

def cycGraph : Graph :=
  [("r", { bl_idname := "NodeReroute", inputs := [("Input", cycSocket)] })]

/--
C9 counterexample (cycle half of the claim).  On a cyclic reroute chain the
source resolver does not fail with any GraphCycleError — no such error
exists in the code — it recurses unboundedly and dies at the host's
recursion limit: for every budget the result is the recursion-limit error.
-/
theorem C9_counterexample : followLinkDiverges cycGraph cycSocket := by
  intro fuel
  induction fuel with
  | zero => rfl
  | succ f ih =>
    rw [follow_link]
    show follow_link cycGraph f cycSocket = Except.error PyErr.recursionError
    exact ih

/-! ## Claim C7: disabled-capability substitution -/

/-- The fixed mid-gray scalar substitute `ctx.color(0.5)`. -/
def halfVal : DVal := .num (1/2)

/-- The fixed dummy color `dummy_color(ctx) = ctx.color([0.0, 1.0, 0.3])`. -/
def dummyColorVal : DVal := .list [.num 0, .num 1, .num (3/10)]

/--
C7 (corrected).  For every capability-gated texture converter except the
mapping node, disabling the capability flag makes the converter return the
fixed scalar 0.5 or the fixed dummy color, without touching the reporter
state.  (The mapping node, contrary to the claim, returns Python's None —
see the counterexample.)
-/
theorem C7_disabled_substitution_amended :
    ∀ (ctx : Ctx) (rec : InSocket → ConvM DVal) (node : Node) (out : String)
      (s : ExpState),
      (ctx.enable_blackbody = false →
        convert_blackbody_node ctx rec node out s = (Except.ok dummyColorVal, s))
      ∧ (ctx.enable_brick = false →
        convert_brick_texture_node ctx rec node out s = (Except.ok dummyColorVal, s))
      ∧ (ctx.enable_checker = false →
        convert_checker_texture_node ctx rec node out s = (Except.ok dummyColorVal, s))
      ∧ (ctx.enable_clamp = false →
        convert_clamp_node ctx rec node out s = (Except.ok dummyColorVal, s))
      ∧ (ctx.enable_coord = false →
        convert_coord_texture_node ctx rec node out s = (Except.ok dummyColorVal, s))
      ∧ (ctx.enable_fresnel = false →
        convert_fresnel_node ctx rec node out s = (Except.ok halfVal, s))
      ∧ (ctx.enable_layer_weight = false →
        convert_layer_weight_node ctx rec node out s = (Except.ok halfVal, s))
      ∧ (ctx.enable_mix_rgb = false →
        convert_mix_rgb_node ctx rec node out s = (Except.ok dummyColorVal, s))
      ∧ (ctx.enable_mix_node = false →
        convert_mix_node ctx rec node out s = (Except.ok dummyColorVal, s))
      ∧ (ctx.enable_musgrave = false →
        convert_musgrave_texture_node ctx rec node out s = (Except.ok halfVal, s))
      ∧ (ctx.enable_noise = false →
        convert_noise_texture_node ctx rec node out s = (Except.ok halfVal, s))
      ∧ (ctx.enable_voronoi = false →
        convert_voronoi_texture_node ctx rec node out s = (Except.ok halfVal, s))
      ∧ (ctx.enable_wave = false →
        convert_wave_texture_node ctx rec node out s = (Except.ok halfVal, s))
      ∧ (ctx.enable_wavelength = false →
        convert_wavelength_node ctx rec node out s = (Except.ok dummyColorVal, s))
      ∧ (ctx.enable_wireframe = false →
        convert_wireframe_texture_node ctx rec node out s = (Except.ok dummyColorVal, s))
      ∧ (ctx.enable_color_ramp = false →
        convert_val_to_rgb_node ctx rec node out s = (Except.ok dummyColorVal, s))
      ∧ (ctx.enable_separate = false →
        convert_separate_node ctx rec node out s = (Except.ok dummyColorVal, s))
      ∧ (ctx.enable_gradient = false →
        convert_gradient_node ctx rec node out s = (Except.ok dummyColorVal, s))
      ∧ (ctx.enable_math = false →
        convert_math_node ctx rec node out s = (Except.ok dummyColorVal, s)) := by
  intro ctx rec node out s
  refine ⟨?_, ?_, ?_, ?_, ?_, ?_, ?_, ?_, ?_, ?_, ?_, ?_, ?_, ?_, ?_, ?_,
    ?_, ?_, ?_⟩
  · intro h; simp only [convert_blackbody_node, h]; rfl
  · intro h; simp only [convert_brick_texture_node, h]; rfl
  · intro h; simp only [convert_checker_texture_node, h]; rfl
  · intro h; simp only [convert_clamp_node, h]; rfl
  · intro h; simp only [convert_coord_texture_node, h]; rfl
  · intro h; simp only [convert_fresnel_node, h]; rfl
  · intro h; simp only [convert_layer_weight_node, h]; rfl
  · intro h; simp only [convert_mix_rgb_node, h]; rfl
  · intro h; simp only [convert_mix_node, h]; rfl
  · intro h; simp only [convert_musgrave_texture_node, h]; rfl
  · intro h; simp only [convert_noise_texture_node, h]; rfl
  · intro h; simp only [convert_voronoi_texture_node, h]; rfl
  · intro h; simp only [convert_wave_texture_node, h]; rfl
  · intro h; simp only [convert_wavelength_node, h]; rfl
  · intro h; simp only [convert_wireframe_texture_node, h]; rfl
  · intro h; simp only [convert_val_to_rgb_node, h]; rfl
  · intro h; simp only [convert_separate_node, h]; rfl
  · intro h; simp only [convert_gradient_node, h]; rfl
  · intro h; simp only [convert_math_node, h]; rfl

/-- A context with every capability flag disabled. -/
def ctxAllOff : Ctx :=
  { enable_blackbody := false, enable_brick := false, enable_checker := false,
    enable_clamp := false, enable_color_ramp := false, enable_coord := false,
    enable_fresnel := false, enable_gradient := false,
    enable_layer_weight := false, enable_mapping := false,
    enable_math := false, enable_musgrave := false, enable_mix_rgb := false,
    enable_mix_node := false, enable_noise := false, enable_separate := false,
    enable_voronoi := false, enable_wave := false, enable_wavelength := false,
    enable_wireframe := false }

def recStub : InSocket → ConvM DVal := fun _ => pure DVal.none

/-- C7 witness: the amended substitutes at a concrete disabled context. -/
theorem C7_witness :
    convert_noise_texture_node ctxAllOff recStub {} "Fac" {} =
      (Except.ok halfVal, ({} : ExpState))
    ∧ convert_brick_texture_node ctxAllOff recStub {} "Fac" {} =
      (Except.ok dummyColorVal, ({} : ExpState)) :=
  ⟨((C7_disabled_substitution_amended ctxAllOff recStub {} "Fac"
      {}).2.2.2.2.2.2.2.2.2.2.1) rfl,
   ((C7_disabled_substitution_amended ctxAllOff recStub {} "Fac"
      {}).2.1) rfl⟩

/-- C7 counterexample: with the mapping capability disabled,
`convert_mapping_node` returns Python's None — neither the fixed scalar 0.5
nor the fixed dummy color required by the claim. -/
theorem C7_counterexample :
    convert_mapping_node ctxAllOff recStub {} "Vector" {} =
      (Except.ok DVal.none, ({} : ExpState))
    ∧ DVal.none ≠ halfVal ∧ DVal.none ≠ dummyColorVal :=
  ⟨rfl, fun h => DVal.noConfusion h, fun h => DVal.noConfusion h⟩

/-! ## Claim C4: zero-emission demotion -/

theorem ConvM.pure_bind {α β : Type} (a : α) (f : α → ConvM β) :
    (pure a >>= f : ConvM β) = f a := rfl

theorem liftE_ok_eq {α : Type} (a : α) :
    liftE (Except.ok a) = (pure a : ConvM α) := rfl

/-- `default_value[:]` of a float-channel color socket. -/
theorem channels_float_seq (qs : List ℚ) :
    PyRaw.channels (.seq (qs.map fun q => PyElem.num (.float q))) =
      Except.ok qs := by
  show (qs.map fun q => PyElem.num (.float q)).mapM _ = Except.ok qs
  induction qs with
  | nil => rfl
  | cons a as ih => rw [List.map_cons, List.mapM_cons, ih]; rfl

def zeroEmissionWarning : String :=
  "  Emitter has zero emission, this may cause Darts to fail! Creating a diffuse material instead."

/--
C4 (confirmed).  An emission node with unconnected Strength and Color whose
radiance (strength times each channel) sums to zero over all channels
converts to the fixed diffuse placeholder and reports a warning; with
nonzero total radiance it converts to an emission descriptor whose color is
the per-channel product of strength and color (first three channels kept).
-/
theorem C4_zero_emission_demotion :
    ∀ (ctx : Ctx) (node : Node) (sSock cSock : InSocket) (strength : ℚ)
      (chans : List ℚ) (s : ExpState),
      node.getInput "Strength" = Except.ok sSock →
      sSock.isLinked = false →
      sSock.default_value = .num (.float strength) →
      node.getInput "Color" = Except.ok cSock →
      cSock.isLinked = false →
      cSock.default_value = .seq (chans.map fun q => PyElem.num (.float q)) →
      (((chans.map fun x => x * strength).sum = 0 →
        convert_emission_material ctx node s =
          (Except.ok (.dict [("type", DVal.str "diffuse"),
             ("color", DVal.num 0)]),
           { s with warnings := s.warnings ++ [zeroEmissionWarning] }))
      ∧ ((chans.map fun x => x * strength).sum ≠ 0 →
         chans.length = 3 ∨ chans.length = 4 →
         convert_emission_material ctx node s =
           (Except.ok (.dict [("type", DVal.str "emission"),
              ("color", DVal.list
                (((chans.map fun x => x * strength).take 3).map DVal.num))]),
            s))) := by
  intro ctx node sSock cSock strength chans s hS hSlink hSdef hC hClink hCdef
  constructor
  · intro hsum
    simp only [convert_emission_material, hS, liftE_ok_eq, ConvM.pure_bind,
      hSlink, Bool.false_eq_true, if_false, hC, hClink, hCdef, hSdef,
      channels_float_seq, PyRaw.asFloat, PyNum.toQ]
    rw [if_pos hsum]
    rfl
  · intro hsum hlen
    simp only [convert_emission_material, hS, liftE_ok_eq, ConvM.pure_bind,
      hSlink, Bool.false_eq_true, if_false, hC, hClink, hCdef, hSdef,
      channels_float_seq, PyRaw.asFloat, PyNum.toQ]
    rw [if_neg hsum]
    have hlen2 : (chans.map fun x => x * strength).length = 3 ∨
        (chans.map fun x => x * strength).length = 4 := by
      rw [List.length_map]; exact hlen
    simp only [color_float_seq_34 (chans.map fun x => x * strength) hlen2,
      liftE_ok_eq, ConvM.pure_bind]
    rfl

def nodeEmZero : Node :=
  { bl_idname := "ShaderNodeEmission",
    inputs := [("Strength", { default_value := .num (.float 0) }),
      ("Color", { default_value := .seq [.num (.float 1), .num (.float 1),
        .num (.float 1), .num (.float 1)] })] }

def nodeEmHot : Node :=
  { bl_idname := "ShaderNodeEmission",
    inputs := [("Strength", { default_value := .num (.float 2) }),
      ("Color", { default_value := .seq [.num (.float 1), .num (.float 0),
        .num (.float 0), .num (.float 1)] })] }

/-- C4 witness: zero radiance demotes to the diffuse placeholder with a
warning; nonzero radiance yields the strength-scaled emission color. -/
theorem C4_witness :
    convert_emission_material {} nodeEmZero {} =
      (Except.ok (.dict [("type", DVal.str "diffuse"), ("color", DVal.num 0)]),
       { warnings := [zeroEmissionWarning] })
    ∧ convert_emission_material {} nodeEmHot {} =
      (Except.ok (.dict [("type", DVal.str "emission"),
         ("color", DVal.list [.num 2, .num 0, .num 0])]), ({} : ExpState)) := by
  constructor
  · have h := (C4_zero_emission_demotion {} nodeEmZero
      { default_value := .num (.float 0) }
      { default_value := .seq [.num (.float 1), .num (.float 1),
          .num (.float 1), .num (.float 1)] } 0 [1, 1, 1, 1] {}
      rfl rfl rfl rfl rfl rfl).1 (by norm_num)
    simpa using h
  · have h := (C4_zero_emission_demotion {} nodeEmHot
      { default_value := .num (.float 2) }
      { default_value := .seq [.num (.float 1), .num (.float 0),
          .num (.float 0), .num (.float 1)] } 2 [1, 0, 0, 1] {}
      rfl rfl rfl rfl rfl rfl).2 (by norm_num) (by simp)
    simpa using h

/-! ## Claim C5: glass dispatch -/

/-- Converting an unlinked socket normalizes its literal default. -/
theorem convert_texture_unlinked (ctx : Ctx) (g : Graph) (fuel : ℕ)
    (sock : InSocket) (h : sock.isLinked = false) :
    convert_texture_node ctx g (fuel + 1) sock =
      liftE (SceneWriter.color sock.default_value) := by
  simp only [convert_texture_node, h, Bool.false_eq_true, if_false]

/--
C5 (confirmed).  A glass node with unconnected roughness defaulting to 0
yields a thin dielectric when IOR is exactly 1 and a dielectric otherwise;
both descriptors carry the IOR with reflectance and transmittance equal to
the converted Color input.  With nonzero roughness and a non-SHARP
distribution the descriptor is a rough dielectric instead.
-/
theorem C5_glass_dispatch :
    ∀ (ctx : Ctx) (g : Graph) (fuel : ℕ) (node : Node)
      (iorSock rSock cSock : InSocket) (ior rho : ℚ) (cv : DVal)
      (s : ExpState),
      node.getInput "IOR" = Except.ok iorSock →
      iorSock.isLinked = false →
      iorSock.default_value = .num (.float ior) →
      node.getInput "Roughness" = Except.ok rSock →
      rSock.isLinked = false →
      rSock.default_value = .num (.float rho) →
      node.getInput "Color" = Except.ok cSock →
      cSock.isLinked = false →
      SceneWriter.color cSock.default_value = Except.ok cv →
      ((rho = 0 → ior = 1 →
        convert_glass_material ctx (convert_texture_node ctx g (fuel + 1))
            node s =
          (Except.ok (.dict [("type", DVal.str "thin dielectric"),
             ("ior", DVal.num ior), ("reflectance", cv),
             ("transmittance", cv)]), s))
      ∧ (rho = 0 → ior ≠ 1 →
        convert_glass_material ctx (convert_texture_node ctx g (fuel + 1))
            node s =
          (Except.ok (.dict [("type", DVal.str "dielectric"),
             ("ior", DVal.num ior), ("reflectance", cv),
             ("transmittance", cv)]), s))
      ∧ (∀ dist : String, rho ≠ 0 → (node.distribution == "SHARP") = false →
         lookupTable RoughnessMode node.distribution = Except.ok dist →
         convert_glass_material ctx (convert_texture_node ctx g (fuel + 1))
             node s =
           (Except.ok (.dict [("type", DVal.str "rough dielectric"),
              ("roughness", DVal.num rho), ("distribution", DVal.str dist),
              ("ior", DVal.num ior), ("reflectance", cv),
              ("transmittance", cv)]), s))) := by
  intro ctx g fuel node iorSock rSock cSock ior rho cv s hI hIlink hIdef hR
    hRlink hRdef hC hClink hCcolor
  have hRconv : convert_texture_node ctx g (fuel + 1) rSock =
      liftE (SceneWriter.color rSock.default_value) :=
    convert_texture_unlinked ctx g fuel rSock hRlink
  have hCconv : convert_texture_node ctx g (fuel + 1) cSock =
      liftE (SceneWriter.color cSock.default_value) :=
    convert_texture_unlinked ctx g fuel cSock hClink
  rw [hRdef] at hRconv
  rw [hCcolor] at hCconv
  refine ⟨?_, ?_, ?_⟩
  · intro hrho hior
    subst hrho
    simp only [convert_glass_material, hI, liftE_ok_eq, ConvM.pure_bind,
      hIlink, Bool.false_eq_true, if_false, hIdef, hR, hRconv, hC, hCconv,
      PyRaw.asFloat, PyNum.toQ, SceneWriter.color]
    simp only [DVal.truthy, bne_self_eq_false, Bool.false_and,
      Bool.false_eq_true, if_false, hior]
    rfl
  · intro hrho hior
    subst hrho
    simp only [convert_glass_material, hI, liftE_ok_eq, ConvM.pure_bind,
      hIlink, Bool.false_eq_true, if_false, hIdef, hR, hRconv, hC, hCconv,
      PyRaw.asFloat, PyNum.toQ, SceneWriter.color]
    simp only [DVal.truthy, bne_self_eq_false, Bool.false_and,
      Bool.false_eq_true, if_false]
    rw [if_neg (by simpa using hior)]
    rfl
  · intro dist hrho hsharp hdist
    simp only [convert_glass_material, hI, liftE_ok_eq, ConvM.pure_bind,
      hIlink, Bool.false_eq_true, if_false, hIdef, hR, hRconv, hC, hCconv,
      PyRaw.asFloat, PyNum.toQ, SceneWriter.color]
    have htruthy : (DVal.num rho).truthy = true := by
      simp [DVal.truthy, hrho]
    have hcond : ((DVal.num rho).truthy &&
        (node.distribution != "SHARP")) = true := by
      rw [htruthy, Bool.true_and]
      show (!(node.distribution == "SHARP")) = true
      rw [hsharp]
      rfl
    simp only [hcond, if_true, hdist, liftE_ok_eq, ConvM.pure_bind]
    rfl

def nodeGlass (iorv : ℚ) (distv : String) (rhov : ℚ) : Node :=
  { bl_idname := "ShaderNodeBsdfGlass",
    distribution := distv,
    inputs := [("Color", { default_value := .seq [.num (.float 1),
        .num (.float 1), .num (.float 1), .num (.float 1)] }),
      ("Roughness", { default_value := .num (.float rhov) }),
      ("IOR", { default_value := .num (.float iorv) })] }

/-- C5 witness: IOR 1 gives thin dielectric, IOR 1.5 gives dielectric,
nonzero roughness with GGX gives rough dielectric. -/
theorem C5_witness :
    convert_glass_material {} (convert_texture_node {} [] 3)
        (nodeGlass 1 "GGX" 0) {} =
      (Except.ok (.dict [("type", DVal.str "thin dielectric"),
         ("ior", DVal.num 1),
         ("reflectance", DVal.list [.num 1, .num 1, .num 1]),
         ("transmittance", DVal.list [.num 1, .num 1, .num 1])]),
       ({} : ExpState))
    ∧ convert_glass_material {} (convert_texture_node {} [] 3)
        (nodeGlass (3/2) "GGX" 0) {} =
      (Except.ok (.dict [("type", DVal.str "dielectric"),
         ("ior", DVal.num (3/2)),
         ("reflectance", DVal.list [.num 1, .num 1, .num 1]),
         ("transmittance", DVal.list [.num 1, .num 1, .num 1])]),
       ({} : ExpState))
    ∧ convert_glass_material {} (convert_texture_node {} [] 3)
        (nodeGlass (3/2) "GGX" (1/2)) {} =
      (Except.ok (.dict [("type", DVal.str "rough dielectric"),
         ("roughness", DVal.num (1/2)), ("distribution", DVal.str "ggx"),
         ("ior", DVal.num (3/2)),
         ("reflectance", DVal.list [.num 1, .num 1, .num 1]),
         ("transmittance", DVal.list [.num 1, .num 1, .num 1])]),
       ({} : ExpState)) := by
  refine ⟨?_, ?_, ?_⟩
  · exact (C5_glass_dispatch {} [] 2 (nodeGlass 1 "GGX" 0) _ _ _ 1 0
      (DVal.list [.num 1, .num 1, .num 1]) {} rfl rfl rfl rfl rfl rfl rfl rfl
      rfl).1 rfl rfl
  · exact (C5_glass_dispatch {} [] 2 (nodeGlass (3/2) "GGX" 0) _ _ _ (3/2) 0
      (DVal.list [.num 1, .num 1, .num 1]) {} rfl rfl rfl rfl rfl rfl rfl rfl
      rfl).2.1 rfl (by norm_num)
  · exact (C5_glass_dispatch {} [] 2 (nodeGlass (3/2) "GGX" (1/2)) _ _ _
      (3/2) (1/2) (DVal.list [.num 1, .num 1, .num 1]) {} rfl rfl rfl rfl rfl
      rfl rfl rfl rfl).2.2 "ggx" (by norm_num) rfl rfl

/-! ## Claim C6: dimensionality gating of procedural textures -/

theorem ConvM.pure_eq_ok {α : Type} {a b : α} {s s1 : ExpState} :
    (pure a : ConvM α) s = (Except.ok b, s1) ↔ b = a ∧ s1 = s := by
  rw [show (pure a : ConvM α) s = (Except.ok a, s) from rfl, Prod.mk.injEq]
  constructor
  · rintro ⟨h1, h2⟩
    injection h1 with h1
    exact ⟨h1.symm, h2.symm⟩
  · rintro ⟨rfl, rfl⟩
    exact ⟨rfl, rfl⟩

theorem dmem_dset_self (d : List (String × DVal)) (k : String) (v : DVal) :
    dmem (dset d k v) k = true := by
  induction d with
  | nil => simp [dmem, dset]
  | cons p rest ih =>
    obtain ⟨k0, v0⟩ := p
    by_cases h : (k0 == k) = true
    · simp only [dset, h, if_true]
      simp [dmem, h]
    · rw [Bool.not_eq_true] at h
      simp only [dset, h, Bool.false_eq_true, if_false]
      simp only [dmem, List.any_cons] at ih ⊢
      rw [ih]
      simp

theorem dmem_dset_ne (d : List (String × DVal)) (k k2 : String) (v : DVal)
    (hne : k2 ≠ k) : dmem (dset d k v) k2 = dmem d k2 := by
  induction d with
  | nil =>
    simp only [dset, dmem, List.any_cons, List.any_nil]
    simp [beq_eq_false_iff_ne, Ne.symm hne]
  | cons p rest ih =>
    obtain ⟨k0, v0⟩ := p
    by_cases h : (k0 == k) = true
    · simp only [dset, h, if_true]
      simp only [dmem, List.any_cons]
    · rw [Bool.not_eq_true] at h
      simp only [dset, h, Bool.false_eq_true, if_false]
      simp only [dmem, List.any_cons] at ih ⊢
      rw [ih]

theorem dgetl_dset_self (d : List (String × DVal)) (k : String) (v : DVal) :
    dgetl (dset d k v) k = some v := by
  induction d with
  | nil => simp [dgetl, dset, List.find?]
  | cons p rest ih =>
    obtain ⟨k0, v0⟩ := p
    by_cases h : (k0 == k) = true
    · simp only [dset, h, if_true]
      simp only [dgetl]
      rw [List.find?_cons_of_pos _ (by exact h)]
      rfl
    · rw [Bool.not_eq_true] at h
      simp only [dset, h, Bool.false_eq_true, if_false]
      simp only [dgetl] at ih ⊢
      rw [List.find?_cons_of_neg _ (by simp [h])]
      exact ih

theorem dgetl_dset_ne (d : List (String × DVal)) (k k2 : String) (v : DVal)
    (hne : k2 ≠ k) : dgetl (dset d k v) k2 = dgetl d k2 := by
  induction d with
  | nil =>
    simp only [dset, dgetl]
    rw [List.find?_cons_of_neg _ (by simp [beq_eq_false_iff_ne, Ne.symm hne])]
  | cons p rest ih =>
    obtain ⟨k0, v0⟩ := p
    by_cases h : (k0 == k) = true
    · have hk : k0 = k := by simpa using h
      subst hk
      simp only [dset, h, if_true]
      simp only [dgetl]
      rw [List.find?_cons_of_neg _ (by simp [beq_eq_false_iff_ne, Ne.symm hne]),
        List.find?_cons_of_neg _ (by simp [beq_eq_false_iff_ne, Ne.symm hne])]
    · rw [Bool.not_eq_true] at h
      simp only [dset, h, Bool.false_eq_true, if_false]
      by_cases h2 : (k0 == k2) = true
      · simp only [dgetl]
        rw [List.find?_cons_of_pos _ (by exact h2),
          List.find?_cons_of_pos _ (by exact h2)]
      · rw [Bool.not_eq_true] at h2
        simp only [dgetl] at ih ⊢
        rw [List.find?_cons_of_neg _ (by simp [h2]),
          List.find?_cons_of_neg _ (by simp [h2])]
        exact ih

theorem dgetl_dpop_ne (d : List (String × DVal)) (k k2 : String)
    (hne : k2 ≠ k) : dgetl (dpop d k) k2 = dgetl d k2 := by
  induction d with
  | nil => rfl
  | cons p rest ih =>
    obtain ⟨k0, v0⟩ := p
    by_cases h2 : (k0 == k2) = true
    · have hk : k0 = k2 := by simpa using h2
      subst hk
      have hkeep : ((k0, v0).1 != k) = true := by
        simp [bne_iff_ne, hne]
      simp only [dpop, List.filter_cons, hkeep, if_true]
      simp only [dgetl]
      rw [List.find?_cons_of_pos _ (by exact h2),
        List.find?_cons_of_pos _ (by exact h2)]
    · rw [Bool.not_eq_true] at h2
      by_cases hk : ((k0, v0).1 != k) = true
      · simp only [dpop, List.filter_cons, hk, if_true]
        simp only [dgetl] at ih ⊢
        rw [List.find?_cons_of_neg _ (by simp [h2]),
          List.find?_cons_of_neg _ (by simp [h2])]
        simpa [dpop] using ih
      · rw [Bool.not_eq_true] at hk
        simp only [dpop, List.filter_cons, hk, Bool.false_eq_true, if_false]
        simp only [dgetl] at ih ⊢
        rw [List.find?_cons_of_neg _ (by simp [h2])]
        simpa [dpop] using ih

/-- Whether the node's `Vector` input socket exists and is connected. -/
def vectorInputLinked (node : Node) : Bool :=
  match node.inputs.find? (fun p => p.1 == "Vector") with
  | some p => p.2.isLinked
  | Option.none => false

theorem vectorInputLinked_eq {node : Node} {vs : InSocket}
    (h : node.getInput "Vector" = Except.ok vs) :
    vectorInputLinked node = vs.isLinked := by
  unfold vectorInputLinked
  unfold Node.getInput at h
  rcases hf : node.inputs.find? (fun p => p.1 == "Vector") with - | p
  · simp only [hf] at h
    exact Except.noConfusion h
  · simp only [hf] at h ⊢
    injection h with h
    rw [h]

/-- The common `W`/`Vector` tail of the procedural texture converters
(textures.py lines 243-248, 275-280, 308-313, 340-345), in the shape the
do-notation elaborates it to (the continuation is pushed into the branches
of each conditional). -/
theorem wv_suffix_spec (rec : InSocket → ConvM DVal) (node : Node)
    (params : List (String × DVal)) (dims : ℕ) (s s1 : ExpState) (d : DVal)
    (h : (if (dims == 1 || dims == 4) = true then do
            let ws ← liftE (node.getInput "W")
            let w ← rec ws
            if (dims != 1) = true then do
              let vs ← liftE (node.getInput "Vector")
              if vs.isLinked = true then do
                let v ← rec vs
                pure (DVal.dict (dset (dset params "w" w) "vector" v))
              else pure (DVal.dict (dset params "w" w))
            else pure (DVal.dict (dset params "w" w))
          else
            if (dims != 1) = true then do
              let vs ← liftE (node.getInput "Vector")
              if vs.isLinked = true then do
                let v ← rec vs
                pure (DVal.dict (dset params "vector" v))
              else pure (DVal.dict params)
            else pure (DVal.dict params)) s = (Except.ok d, s1))
    (hw : dmem params "w" = false) (hv : dmem params "vector" = false) :
    d.hasKey "w" = (dims == 1 || dims == 4) ∧
    d.hasKey "vector" = ((dims != 1) && vectorInputLinked node) := by
  by_cases hc1 : (dims == 1 || dims == 4) = true
  · simp only [hc1, if_true] at h
    obtain ⟨ws, t1, -, h⟩ := ConvM.bind_eq_ok.mp h
    obtain ⟨w, t2, -, h⟩ := ConvM.bind_eq_ok.mp h
    rw [hc1]
    by_cases hc2 : (dims != 1) = true
    · simp only [hc2, if_true] at h
      obtain ⟨vs, t3, h3, h⟩ := ConvM.bind_eq_ok.mp h
      obtain ⟨hvs, -⟩ := liftE_apply_eq_ok.mp h3
      have hlink := vectorInputLinked_eq hvs
      rw [hc2, hlink]
      by_cases hl : vs.isLinked = true
      · rw [hl] at h
        simp only [if_true] at h
        obtain ⟨v, t4, -, h⟩ := ConvM.bind_eq_ok.mp h
        obtain ⟨rfl, -⟩ := ConvM.pure_eq_ok.mp h
        rw [hl]
        constructor
        · show dmem (dset (dset params "w" w) "vector" v) "w" = true
          rw [dmem_dset_ne _ _ _ _ (by decide)]
          exact dmem_dset_self params "w" w
        · show dmem (dset (dset params "w" w) "vector" v) "vector" = _
          rw [dmem_dset_self]
          rfl
      · rw [Bool.not_eq_true] at hl
        rw [hl] at h
        simp only [Bool.false_eq_true, if_false] at h
        obtain ⟨rfl, -⟩ := ConvM.pure_eq_ok.mp h
        rw [hl]
        constructor
        · exact dmem_dset_self params "w" w
        · show dmem (dset params "w" w) "vector" = _
          rw [dmem_dset_ne _ _ _ _ (by decide), hv]
          rfl
    · rw [Bool.not_eq_true] at hc2
      simp only [hc2, Bool.false_eq_true, if_false] at h
      obtain ⟨rfl, -⟩ := ConvM.pure_eq_ok.mp h
      rw [hc2]
      constructor
      · exact dmem_dset_self params "w" w
      · show dmem (dset params "w" w) "vector" = _
        rw [dmem_dset_ne _ _ _ _ (by decide), hv]
        rfl
  · rw [Bool.not_eq_true] at hc1
    simp only [hc1, Bool.false_eq_true, if_false] at h
    rw [hc1]
    by_cases hc2 : (dims != 1) = true
    · simp only [hc2, if_true] at h
      obtain ⟨vs, t3, h3, h⟩ := ConvM.bind_eq_ok.mp h
      obtain ⟨hvs, -⟩ := liftE_apply_eq_ok.mp h3
      have hlink := vectorInputLinked_eq hvs
      rw [hc2, hlink]
      by_cases hl : vs.isLinked = true
      · rw [hl] at h
        simp only [if_true] at h
        obtain ⟨v, t4, -, h⟩ := ConvM.bind_eq_ok.mp h
        obtain ⟨rfl, -⟩ := ConvM.pure_eq_ok.mp h
        rw [hl]
        constructor
        · show dmem (dset params "vector" v) "w" = false
          rw [dmem_dset_ne _ _ _ _ (by decide)]
          exact hw
        · show dmem (dset params "vector" v) "vector" = _
          rw [dmem_dset_self]
          rfl
      · rw [Bool.not_eq_true] at hl
        rw [hl] at h
        simp only [Bool.false_eq_true, if_false] at h
        obtain ⟨rfl, -⟩ := ConvM.pure_eq_ok.mp h
        rw [hl]
        refine ⟨hw, ?_⟩
        show dmem params "vector" = _
        rw [hv]
        rfl
    · rw [Bool.not_eq_true] at hc2
      simp only [hc2, Bool.false_eq_true, if_false] at h
      obtain ⟨rfl, -⟩ := ConvM.pure_eq_ok.mp h
      rw [hc2]
      refine ⟨hw, ?_⟩
      show dmem params "vector" = _
      rw [hv]
      rfl

/--
C6 (confirmed).  For every enabled procedural texture node (noise, white
noise, voronoi, musgrave) that converts successfully, the descriptor has a
"w" entry iff the declared dimensionality maps to 1 or 4, and a "vector"
entry iff the dimensionality is not 1 and the node's Vector input is
connected.
-/
theorem C6_dimensionality_gating :
    (∀ (ctx : Ctx) (rec : InSocket → ConvM DVal) (node : Node) (out : String)
       (s s1 : ExpState) (d : DVal) (dims : ℕ),
       ctx.enable_noise = true →
       dimensionsOf node.noise_dimensions = Except.ok dims →
       convert_noise_texture_node ctx rec node out s = (Except.ok d, s1) →
       d.hasKey "w" = (dims == 1 || dims == 4) ∧
       d.hasKey "vector" = ((dims != 1) && vectorInputLinked node))
    ∧ (∀ (ctx : Ctx) (rec : InSocket → ConvM DVal) (node : Node)
       (out : String) (s s1 : ExpState) (d : DVal) (dims : ℕ),
       dimensionsOf node.noise_dimensions = Except.ok dims →
       convert_white_noise_texture_node ctx rec node out s =
         (Except.ok d, s1) →
       d.hasKey "w" = (dims == 1 || dims == 4) ∧
       d.hasKey "vector" = ((dims != 1) && vectorInputLinked node))
    ∧ (∀ (ctx : Ctx) (rec : InSocket → ConvM DVal) (node : Node)
       (out : String) (s s1 : ExpState) (d : DVal) (dims : ℕ),
       ctx.enable_voronoi = true →
       dimensionsOf node.voronoi_dimensions = Except.ok dims →
       convert_voronoi_texture_node ctx rec node out s = (Except.ok d, s1) →
       d.hasKey "w" = (dims == 1 || dims == 4) ∧
       d.hasKey "vector" = ((dims != 1) && vectorInputLinked node))
    ∧ (∀ (ctx : Ctx) (rec : InSocket → ConvM DVal) (node : Node)
       (out : String) (s s1 : ExpState) (d : DVal) (dims : ℕ),
       ctx.enable_musgrave = true →
       dimensionsOf node.noise_dimensions = Except.ok dims →
       convert_musgrave_texture_node ctx rec node out s =
         (Except.ok d, s1) →
       d.hasKey "w" = (dims == 1 || dims == 4) ∧
       d.hasKey "vector" = ((dims != 1) && vectorInputLinked node)) := by
  refine ⟨?_, ?_, ?_, ?_⟩
  · intro ctx rec node out s s1 d dims hen hdims h
    simp only [convert_noise_texture_node, hen, Bool.not_true,
      Bool.false_eq_true, if_false, hdims, liftE_ok_eq, ConvM.pure_bind] at h
    obtain ⟨a1, t1, -, h⟩ := ConvM.bind_eq_ok.mp h
    obtain ⟨a2, t2, -, h⟩ := ConvM.bind_eq_ok.mp h
    obtain ⟨a3, t3, -, h⟩ := ConvM.bind_eq_ok.mp h
    obtain ⟨a4, t4, -, h⟩ := ConvM.bind_eq_ok.mp h
    obtain ⟨a5, t5, -, h⟩ := ConvM.bind_eq_ok.mp h
    obtain ⟨a6, t6, -, h⟩ := ConvM.bind_eq_ok.mp h
    obtain ⟨a7, t7, -, h⟩ := ConvM.bind_eq_ok.mp h
    obtain ⟨a8, t8, -, h⟩ := ConvM.bind_eq_ok.mp h
    obtain ⟨a9, t9, -, h⟩ := ConvM.bind_eq_ok.mp h
    obtain ⟨a10, t10, -, h⟩ := ConvM.bind_eq_ok.mp h
    exact wv_suffix_spec rec node _ dims _ _ d h rfl rfl
  · intro ctx rec node out s s1 d dims hdims h
    simp only [convert_white_noise_texture_node, hdims, liftE_ok_eq,
      ConvM.pure_bind] at h
    exact wv_suffix_spec rec node _ dims _ _ d h rfl rfl
  · intro ctx rec node out s s1 d dims hen hdims h
    simp only [convert_voronoi_texture_node, hen, Bool.not_true,
      Bool.false_eq_true, if_false, hdims, liftE_ok_eq, ConvM.pure_bind] at h
    obtain ⟨a1, t1, -, h⟩ := ConvM.bind_eq_ok.mp h
    obtain ⟨a2, t2, -, h⟩ := ConvM.bind_eq_ok.mp h
    obtain ⟨a3, t3, -, h⟩ := ConvM.bind_eq_ok.mp h
    obtain ⟨a4, t4, -, h⟩ := ConvM.bind_eq_ok.mp h
    by_cases hf : (((node.feature.toLower).replace "_" " ") == "smooth f1")
        = true
    · simp only [hf, if_true] at h
      obtain ⟨b1, u1, -, h⟩ := ConvM.bind_eq_ok.mp h
      obtain ⟨b2, u2, -, h⟩ := ConvM.bind_eq_ok.mp h
      refine wv_suffix_spec rec node _ dims _ _ d h ?_ ?_
      · rw [dmem_dset_ne _ _ _ _ (by decide)]
        rfl
      · rw [dmem_dset_ne _ _ _ _ (by decide)]
        rfl
    · rw [Bool.not_eq_true] at hf
      simp only [hf, Bool.false_eq_true, if_false] at h
      exact wv_suffix_spec rec node _ dims _ _ d h rfl rfl
  · intro ctx rec node out s s1 d dims hen hdims h
    simp only [convert_musgrave_texture_node, hen, Bool.not_true,
      Bool.false_eq_true, if_false, hdims, liftE_ok_eq, ConvM.pure_bind] at h
    obtain ⟨a1, t1, -, h⟩ := ConvM.bind_eq_ok.mp h
    obtain ⟨a2, t2, -, h⟩ := ConvM.bind_eq_ok.mp h
    obtain ⟨a3, t3, -, h⟩ := ConvM.bind_eq_ok.mp h
    obtain ⟨a4, t4, -, h⟩ := ConvM.bind_eq_ok.mp h
    obtain ⟨a5, t5, -, h⟩ := ConvM.bind_eq_ok.mp h
    obtain ⟨a6, t6, -, h⟩ := ConvM.bind_eq_ok.mp h
    obtain ⟨a7, t7, -, h⟩ := ConvM.bind_eq_ok.mp h
    obtain ⟨a8, t8, -, h⟩ := ConvM.bind_eq_ok.mp h
    obtain ⟨a9, t9, -, h⟩ := ConvM.bind_eq_ok.mp h
    obtain ⟨a10, t10, -, h⟩ := ConvM.bind_eq_ok.mp h
    obtain ⟨a11, t11, -, h⟩ := ConvM.bind_eq_ok.mp h
    obtain ⟨a12, t12, -, h⟩ := ConvM.bind_eq_ok.mp h
    exact wv_suffix_spec rec node _ dims _ _ d h rfl rfl

def nodeNoise1D : Node :=
  { bl_idname := "ShaderNodeTexNoise",
    noise_dimensions := "1D",
    inputs := [("Scale", {}), ("Detail", {}), ("Roughness", {}),
      ("Lacunarity", {}), ("Distortion", {}), ("W", {})] }

def dNoiseW : DVal :=
  .dict [("type", .str "noise"), ("scale", .none), ("detail", .none),
    ("roughness", .none), ("lacunarity", .none), ("distortion", .none),
    ("dimensions", .num ((1 : ℕ) : ℚ)), ("normalize", .bool true),
    ("output", .str "float"), ("w", .none)]

/-- C6 witness: a 1D noise node has a "w" entry and no "vector" entry. -/
theorem C6_witness :
    convert_noise_texture_node {} recStub nodeNoise1D "Fac" {} =
      (Except.ok dNoiseW, ({} : ExpState))
    ∧ dNoiseW.hasKey "w" = ((1 : ℕ) == 1 || (1 : ℕ) == 4)
    ∧ dNoiseW.hasKey "vector" =
        (((1 : ℕ) != 1) && vectorInputLinked nodeNoise1D) := by
  refine ⟨rfl, ?_, ?_⟩
  · exact (C6_dimensionality_gating.1 {} recStub nodeNoise1D "Fac" {} {}
      dNoiseW 1 rfl rfl rfl).1
  · exact (C6_dimensionality_gating.1 {} recStub nodeNoise1D "Fac" {} {}
      dNoiseW 1 rfl rfl rfl).2

/-! ## Claim C1: wrap ordering of two-sided and normal/bump adapters -/

/-- Two-level lookup: the `k2` entry of the nested dict at `k1`. -/
def getKey2 (d : DVal) (k1 k2 : String) : Option DVal :=
  match d.getKey k1 with
  | some i => i.getKey k2
  | Option.none => Option.none

theorem make_two_sided_force (ctx : Ctx) (h : ctx.force_two_sided = true)
    (bsdf : DVal) :
    make_two_sided ctx bsdf =
      pure (DVal.dict [("type", DVal.str "two sided"),
        ("both sides", bsdf)]) := by
  simp only [make_two_sided, h, if_true]
  rfl

/-- A successful diffuse conversion under `force_two_sided` produces a
two-sided wrapper. -/
theorem convert_diffuse_two_sided (ctx : Ctx) (rec : InSocket → ConvM DVal)
    (node : Node) (s s1 : ExpState) (r : DVal)
    (hforce : ctx.force_two_sided = true)
    (h : convert_diffuse_material ctx rec node s = (Except.ok r, s1)) :
    ∃ inner, r = .dict [("type", DVal.str "two sided"),
      ("both sides", inner)] := by
  simp only [convert_diffuse_material] at h
  obtain ⟨a1, t1, -, h⟩ := ConvM.bind_eq_ok.mp h
  obtain ⟨a2, t2, -, h⟩ := ConvM.bind_eq_ok.mp h
  obtain ⟨a3, t3, -, h⟩ := ConvM.bind_eq_ok.mp h
  obtain ⟨a4, t4, -, h⟩ := ConvM.bind_eq_ok.mp h
  rw [make_two_sided_force ctx hforce] at h
  obtain ⟨hr, -⟩ := ConvM.pure_eq_ok.mp h
  exact ⟨_, hr⟩

/-- A successful glossy conversion under `force_two_sided` produces a
two-sided wrapper. -/
theorem convert_glossy_two_sided (ctx : Ctx) (rec : InSocket → ConvM DVal)
    (node : Node) (s s1 : ExpState) (r : DVal)
    (hforce : ctx.force_two_sided = true)
    (h : convert_glossy_material ctx rec node s = (Except.ok r, s1)) :
    ∃ inner, r = .dict [("type", DVal.str "two sided"),
      ("both sides", inner)] := by
  simp only [convert_glossy_material] at h
  obtain ⟨params, t, -, h⟩ := ConvM.bind_eq_ok.mp h
  rw [make_two_sided_force ctx hforce] at h
  obtain ⟨hr, -⟩ := ConvM.pure_eq_ok.mp h
  exact ⟨_, hr⟩

theorem dgetl_isSome_of_dmem (d : List (String × DVal)) (k : String)
    (h : dmem d k = true) : ∃ v, dgetl d k = some v := by
  unfold dmem at h
  unfold dgetl
  rcases hf : d.find? (fun p => p.1 == k) with - | p
  · rw [List.find?_eq_none] at hf
    rw [List.any_eq_true] at h
    obtain ⟨x, hx, hpx⟩ := h
    exact absurd hpx (by simpa using hf x hx)
  · exact ⟨p.2, by rw [hf]; rfl⟩

/-- What `finish_wrapper` returns: the wrapper dict, its `nested` entry
holding the nested dict (minus any migrated name). -/
theorem finish_wrapper_spec (nd : List (String × DVal))
    (wrapper : List (String × DVal)) (s s1 : ExpState) (r : DVal)
    (h : finish_wrapper (.dict nd) wrapper s = (Except.ok r, s1)) :
    r.getKey "type" = dgetl wrapper "type" ∧
    getKey2 r "nested" "type" = dgetl nd "type" := by
  simp only [finish_wrapper, DVal.asDict, liftE_ok_eq, ConvM.pure_bind,
    infoM] at h
  by_cases hn : dmem nd "name" = true
  · obtain ⟨v, hv⟩ := dgetl_isSome_of_dmem nd "name" hn
    simp only [hn, if_true, hv] at h
    obtain ⟨hr, -⟩ := ConvM.pure_eq_ok.mp h
    subst hr
    constructor
    · show dgetl (dset (dset wrapper "name" v) "nested"
        (.dict (dpop nd "name"))) "type" = _
      rw [dgetl_dset_ne _ _ _ _ (by decide), dgetl_dset_ne _ _ _ _ (by decide)]
    · show getKey2 (.dict (dset (dset wrapper "name" v) "nested"
        (.dict (dpop nd "name")))) "nested" "type" = _
      unfold getKey2
      show (match DVal.getKey (.dict (dset (dset wrapper "name" v) "nested"
        (.dict (dpop nd "name")))) "nested" with
        | some i => i.getKey "type"
        | Option.none => Option.none) = _
      have hget : DVal.getKey (.dict (dset (dset wrapper "name" v) "nested"
          (.dict (dpop nd "name")))) "nested" =
          some (.dict (dpop nd "name")) := by
        show dgetl (dset (dset wrapper "name" v) "nested"
          (.dict (dpop nd "name"))) "nested" = _
        rw [dgetl_dset_self]
      rw [hget]
      show dgetl (dpop nd "name") "type" = _
      rw [dgetl_dpop_ne _ _ _ (by decide)]
  · rw [Bool.not_eq_true] at hn
    simp only [hn, Bool.false_eq_true, if_false] at h
    obtain ⟨hr, -⟩ := ConvM.pure_eq_ok.mp h
    subst hr
    constructor
    · show dgetl (dset wrapper "nested" (.dict nd)) "type" = _
      rw [dgetl_dset_ne _ _ _ _ (by decide)]
    · unfold getKey2
      have hget : DVal.getKey (.dict (dset wrapper "nested" (.dict nd)))
          "nested" = some (.dict nd) := by
        show dgetl (dset wrapper "nested" (.dict nd)) "nested" = _
        rw [dgetl_dset_self]
      rw [hget]
      rfl

theorem hasInput_of_getInput {node : Node} {name : String} {sock : InSocket}
    (h : node.getInput name = Except.ok sock) :
    node.hasInput name = true := by
  unfold Node.getInput at h
  unfold Node.hasInput
  rcases hf : node.inputs.find? (fun p => p.1 == name) with - | p
  · simp only [hf] at h
    exact Except.noConfusion h
  · have hmem := List.mem_of_find?_eq_some hf
    have hp0 := List.find?_some hf
    have hp : (p.1 == name) = true := hp0
    rw [List.any_eq_true]
    exact ⟨p, hmem, hp⟩

/-- When the wrapping conditions hold, `wrap_with_bump_or_normal_map` turns
the nested dict into an entry of a normal-map or bump-map wrapper. -/
theorem wrap_applies (ctx : Ctx) (g : Graph) (fuel : ℕ)
    (recTex : InSocket → ConvM DVal) (node : Node)
    (nd : List (String × DVal)) (s s1 : ExpState) (r : DVal)
    (nsock fs : InSocket) (n : Node)
    (hNs : node.getInput "Normal" = Except.ok nsock)
    (hLink : nsock.isLinked = true)
    (hFollow : follow_link g fuel nsock = Except.ok fs)
    (hNode : linkedFromNode g fs = Except.ok n)
    (hkind : (n.bl_idname = "ShaderNodeNormalMap" ∧
        ctx.use_normal_maps = true ∧ n.space = "TANGENT")
      ∨ (n.bl_idname = "ShaderNodeBump" ∧ ctx.use_bump_maps = true))
    (h : wrap_with_bump_or_normal_map ctx g fuel recTex node (.dict nd) s =
      (Except.ok r, s1)) :
    (r.getKey "type" = some (.str "normal map") ∨
     r.getKey "type" = some (.str "bump map")) ∧
    getKey2 r "nested" "type" = dgetl nd "type" := by
  have hflags : (ctx.use_normal_maps || ctx.use_bump_maps) = true := by
    rcases hkind with ⟨-, h2, -⟩ | ⟨-, h2⟩
    · rw [h2]; rfl
    · rw [h2]; simp
  have hcond : ((ctx.use_normal_maps || ctx.use_bump_maps) &&
      node.hasInput "Normal") = true := by
    rw [hflags, hasInput_of_getInput hNs]
    rfl
  simp only [wrap_with_bump_or_normal_map, hcond, if_true, hNs, liftE_ok_eq,
    ConvM.pure_bind, hLink, hFollow, hNode] at h
  rcases hkind with ⟨hbl, hnm, hspace⟩ | ⟨hbl, hbm⟩
  · rw [hbl] at h
    simp only [show (("ShaderNodeNormalMap" : String) ==
      "ShaderNodeNormalMap") = true from rfl, if_true, hnm, Bool.not_true,
      Bool.false_eq_true, if_false, hspace] at h
    simp only [show (("TANGENT" : String) != "TANGENT") = false from rfl,
      Bool.false_eq_true, if_false] at h
    obtain ⟨a1, t1, -, h⟩ := ConvM.bind_eq_ok.mp h
    obtain ⟨a2, t2, -, h⟩ := ConvM.bind_eq_ok.mp h
    obtain ⟨a3, t3, -, h⟩ := ConvM.bind_eq_ok.mp h
    obtain ⟨hty, hnest⟩ := finish_wrapper_spec nd _ _ _ r h
    refine ⟨Or.inl ?_, hnest⟩
    rw [hty]
    rfl
  · rw [hbl] at h
    simp only [show (("ShaderNodeBump" : String) == "ShaderNodeNormalMap")
      = false from rfl, Bool.false_eq_true, if_false,
      show (("ShaderNodeBump" : String) == "ShaderNodeBump") = true from rfl,
      if_true, hbm, Bool.not_true] at h
    obtain ⟨a1, t1, -, h⟩ := ConvM.bind_eq_ok.mp h
    obtain ⟨a2, t2, -, h⟩ := ConvM.bind_eq_ok.mp h
    obtain ⟨a3, t3, -, h⟩ := ConvM.bind_eq_ok.mp h
    obtain ⟨a4, t4, -, h⟩ := ConvM.bind_eq_ok.mp h
    obtain ⟨a5, t5, -, h⟩ := ConvM.bind_eq_ok.mp h
    obtain ⟨a6, t6, -, h⟩ := ConvM.bind_eq_ok.mp h
    obtain ⟨hty, hnest⟩ := finish_wrapper_spec nd _ _ _ r h
    refine ⟨Or.inr ?_, hnest⟩
    rw [hty]
    rfl

/--
C1 (corrected).  When a surface conversion applies both the two-sided wrap
(diffuse/glossy node with `force_two_sided` enabled) and a normal/bump wrap
(recognized node on the Normal input with its capability enabled), the final
descriptor returned by `cycles_surface_to_dict` has the normal/bump adapter
as its outermost layer and the two-sided adapter immediately inside it —
the opposite nesting of the one the claim states.
-/
theorem C1_wrap_order_amended :
    ∀ (ctx : Ctx) (g : Graph) (fuel : ℕ) (node : Node) (name : Option String)
      (nsock fs : InSocket) (n : Node) (s s1 : ExpState) (d : DVal),
      (node.bl_idname = "ShaderNodeBsdfDiffuse" ∨
       node.bl_idname = "ShaderNodeBsdfGlossy" ∨
       node.bl_idname = "ShaderNodeBsdfAnisotropic") →
      ctx.force_two_sided = true →
      node.getInput "Normal" = Except.ok nsock →
      nsock.isLinked = true →
      follow_link g fuel nsock = Except.ok fs →
      linkedFromNode g fs = Except.ok n →
      ((n.bl_idname = "ShaderNodeNormalMap" ∧ ctx.use_normal_maps = true ∧
          n.space = "TANGENT") ∨
       (n.bl_idname = "ShaderNodeBump" ∧ ctx.use_bump_maps = true)) →
      cycles_surface_to_dict ctx g (fuel + 1) node name s =
        (Except.ok d, s1) →
      ((d.getKey "type" = some (.str "normal map") ∨
        d.getKey "type" = some (.str "bump map")) ∧
       getKey2 d "nested" "type" = some (.str "two sided")) := by
  intro ctx g fuel node name nsock fs n s s1 d hkind hforce hNs hLink
    hFollow hNode hwrapkind h
  rcases hkind with hbl | hbl | hbl
  · simp only [cycles_surface_to_dict, hbl] at h
    obtain ⟨sub, t1, hsub, h⟩ := ConvM.bind_eq_ok.mp h
    obtain ⟨inner, rfl⟩ := convert_diffuse_two_sided _ _ _ _ _ _ hforce hsub
    simp only [DVal.asDict, liftE_ok_eq, ConvM.pure_bind] at h
    have hw := wrap_applies ctx g fuel _ node _ t1 s1 d nsock fs n hNs hLink
      hFollow hNode hwrapkind h
    refine ⟨hw.1, ?_⟩
    rw [hw.2]
    unfold dupdate
    simp only [List.foldl_cons, List.foldl_nil]
    rw [dgetl_dset_ne _ _ _ _ (by decide), dgetl_dset_self]
  · simp only [cycles_surface_to_dict, hbl] at h
    obtain ⟨sub, t1, hsub, h⟩ := ConvM.bind_eq_ok.mp h
    obtain ⟨inner, rfl⟩ := convert_glossy_two_sided _ _ _ _ _ _ hforce hsub
    simp only [DVal.asDict, liftE_ok_eq, ConvM.pure_bind] at h
    have hw := wrap_applies ctx g fuel _ node _ t1 s1 d nsock fs n hNs hLink
      hFollow hNode hwrapkind h
    refine ⟨hw.1, ?_⟩
    rw [hw.2]
    unfold dupdate
    simp only [List.foldl_cons, List.foldl_nil]
    rw [dgetl_dset_ne _ _ _ _ (by decide), dgetl_dset_self]
  · simp only [cycles_surface_to_dict, hbl] at h
    obtain ⟨sub, t1, hsub, h⟩ := ConvM.bind_eq_ok.mp h
    obtain ⟨inner, rfl⟩ := convert_glossy_two_sided _ _ _ _ _ _ hforce hsub
    simp only [DVal.asDict, liftE_ok_eq, ConvM.pure_bind] at h
    have hw := wrap_applies ctx g fuel _ node _ t1 s1 d nsock fs n hNs hLink
      hFollow hNode hwrapkind h
    refine ⟨hw.1, ?_⟩
    rw [hw.2]
    unfold dupdate
    simp only [List.foldl_cons, List.foldl_nil]
    rw [dgetl_dset_ne _ _ _ _ (by decide), dgetl_dset_self]

def nodeNM : Node :=
  { bl_idname := "ShaderNodeNormalMap", space := "TANGENT",
    inputs := [("Color", { default_value := .seq [.num (.float (1/2)),
        .num (.float (1/2)), .num (.float 1), .num (.float 1)] }),
      ("Strength", { default_value := .num (.float 1) })] }

def nodeDiffC1 : Node :=
  { bl_idname := "ShaderNodeBsdfDiffuse",
    inputs := [("Color", { default_value := .seq [.num (.float (4/5)),
        .num (.float (4/5)), .num (.float (4/5)), .num (.float 1)] }),
      ("Roughness", { default_value := .num (.float 0) }),
      ("Normal", { link := some ⟨"NM", "Normal"⟩ })] }

def gC1 : Graph := [("D", nodeDiffC1), ("NM", nodeNM)]

def ctxC1 : Ctx := {}

/-- The descriptor the exporter actually produces for a named two-sided
diffuse material with a tangent-space normal map. -/
def dC1 : DVal := .dict [("type", .str "normal map"),
  ("normals", .list [.num (1/2), .num (1/2), .num 1]),
  ("strength", .num 1),
  ("name", .str "Mat"),
  ("nested", .dict [("type", .str "two sided"),
    ("both sides", .dict [("type", .str "diffuse"),
      ("color", .list [.num (4/5), .num (4/5), .num (4/5)]),
      ("roughness", .num 0)])])]

/-- C1 counterexample: with both wraps applicable, the outermost layer of
the final descriptor is the normal-map adapter (not the two-sided adapter
as the claim states); the two-sided adapter sits immediately inside it. -/
theorem C1_counterexample :
    cycles_surface_to_dict ctxC1 gC1 5 nodeDiffC1 (some "Mat") {} =
      (Except.ok dC1, ({} : ExpState))
    ∧ dC1.getKey "type" = some (.str "normal map")
    ∧ dC1.getKey "type" ≠ some (.str "two sided")
    ∧ getKey2 dC1 "nested" "type" = some (.str "two sided") := by
  refine ⟨rfl, rfl, ?_, rfl⟩
  intro hcon
  have h2 : some (DVal.str "normal map") = some (DVal.str "two sided") := by
    rw [show dC1.getKey "type" = some (DVal.str "normal map") from rfl]
      at hcon
    exact hcon
  injection h2 with h2
  injection h2 with h2
  exact absurd h2 (by decide)

/-- C1 witness: the amended wrap-order statement at the concrete scene. -/
theorem C1_witness :
    cycles_surface_to_dict ctxC1 gC1 5 nodeDiffC1 (some "Mat") {} =
      (Except.ok dC1, ({} : ExpState))
    ∧ ((dC1.getKey "type" = some (.str "normal map") ∨
        dC1.getKey "type" = some (.str "bump map")) ∧
       getKey2 dC1 "nested" "type" = some (.str "two sided")) :=
  ⟨rfl, C1_wrap_order_amended ctxC1 gC1 4 nodeDiffC1 (some "Mat")
    { link := some ⟨"NM", "Normal"⟩ } { link := some ⟨"NM", "Normal"⟩ }
    nodeNM {} {} dC1 (Or.inl rfl) rfl rfl rfl rfl rfl
    (Or.inl ⟨rfl, rfl, rfl⟩) rfl⟩

/-! ## Claim C2: the named-boundary error recovery -/

/-- The value normalizer never raises NotImplementedError. -/
theorem color_err_not_NIE (v : PyRaw) (e : PyErr)
    (h : SceneWriter.color v = Except.error e) :
    e.isNotImplemented = false := by
  rcases v with n | s | l
  · exact Except.noConfusion h
  · simp only [SceneWriter.color] at h
    injection h with h
    rw [← h]
    rfl
  · simp only [SceneWriter.color] at h
    split at h
    · injection h with h
      rw [← h]
      rfl
    · split at h
      · injection h with h
        rw [← h]
        rfl
      · split at h
        · injection h with h
          rw [← h]
          rfl
        · split at h
          · split at h
            · exact Except.noConfusion h
            · split at h
              · exact Except.noConfusion h
              · injection h with h
                rw [← h]
                rfl
          · exact Except.noConfusion h

theorem setItem_err_not_NIE (v : DVal) (k : String) (x : DVal) (e : PyErr)
    (h : DVal.setItem v k x = Except.error e) :
    e.isNotImplemented = false := by
  unfold DVal.setItem at h
  split at h
  · exact Except.noConfusion h
  · injection h with h
    rw [← h]
    rfl

/-- The dummy-material substitute for a named material. -/
def dummyFor (nm : String) : DVal :=
  .dict [("type", DVal.str "diffuse"),
    ("color", .list [.num 1, .num 0, .num (3/10)]),
    ("name", .str (material_name nm))]

theorem get_dummy_ok (ctx : Ctx) (nm : String) (s : ExpState) :
    get_dummy_material ctx (some nm) s = (Except.ok (dummyFor nm), s) := rfl

def convertFailWarning : String :=
  "Export of material failed. Exporting a dummy material instead."

theorem ConvM.throw_bind {α β : Type} (e : PyErr) (f : α → ConvM β) :
    (ConvM.throw e >>= f) = (ConvM.throw e : ConvM β) := rfl

theorem ConvM.throw_apply {α : Type} (e : PyErr) (s : ExpState) :
    (ConvM.throw e : ConvM α) s = (Except.error e, s) := rfl

/--
C2 (corrected).  The named boundary `convert_material` catches only
NotImplementedError: (1) a NotImplementedError raised in the conversion body
is replaced by the dummy diffuse placeholder plus a warning, and no
NotImplementedError ever escapes; (2) every other exception — in particular
the ValueError of a malformed literal color — escapes the boundary
uncaught, aborting the export (see the counterexample).
-/
theorem C2_named_boundary_amended :
    (∀ (ctx : Ctx) (fuel : ℕ) (b_mat : BMat) (s s1 : ExpState)
       (msg : String),
       b_mat.use_nodes = true →
       convert_material_body ctx fuel b_mat s =
         (Except.error (.notImplemented msg), s1) →
       convert_material ctx fuel b_mat s =
         (Except.ok (dummyFor b_mat.name_full, Option.none),
          { s1 with warnings := s1.warnings ++ [convertFailWarning] }))
    ∧ (∀ (ctx : Ctx) (fuel : ℕ) (b_mat : BMat) (s s1 : ExpState) (e : PyErr),
       convert_material ctx fuel b_mat s = (Except.error e, s1) →
       e.isNotImplemented = false) := by
  constructor
  · intro ctx fuel b_mat s s1 msg hun hb
    unfold convert_material
    rw [hun]
    simp only [if_true]
    unfold catchNIE
    rw [hb]
    rfl
  · intro ctx fuel b_mat s s1 e h
    unfold convert_material at h
    by_cases hun : b_mat.use_nodes = true
    · rw [hun] at h
      simp only [if_true] at h
      unfold catchNIE at h
      rcases hb : convert_material_body ctx fuel b_mat s with ⟨res, s2⟩
      rw [hb] at h
      cases res with
      | ok a => exact absurd (congrArg Prod.fst h) (by simp)
      | error eb =>
        cases eb with
        | notImplemented m =>
          simp only [ConvM.bind_apply, warnM, get_dummy_ok,
            ConvM.pure_apply] at h
          exact absurd (congrArg Prod.fst h) (by simp)
        | valueError m =>
          have h2 := congrArg Prod.fst h
          simp only at h2
          injection h2 with h2
          rw [← h2]
          rfl
        | typeError m =>
          have h2 := congrArg Prod.fst h
          simp only at h2
          injection h2 with h2
          rw [← h2]
          rfl
        | keyError k =>
          have h2 := congrArg Prod.fst h
          simp only at h2
          injection h2 with h2
          rw [← h2]
          rfl
        | indexError =>
          have h2 := congrArg Prod.fst h
          simp only at h2
          injection h2 with h2
          rw [← h2]
          rfl
        | zeroDivisionError =>
          have h2 := congrArg Prod.fst h
          simp only at h2
          injection h2 with h2
          rw [← h2]
          rfl
        | recursionError =>
          have h2 := congrArg Prod.fst h
          simp only at h2
          injection h2 with h2
          rw [← h2]
          rfl
        | unmodeled k =>
          have h2 := congrArg Prod.fst h
          simp only at h2
          injection h2 with h2
          rw [← h2]
          rfl
    · rw [Bool.not_eq_true] at hun
      rw [hun] at h
      simp only [Bool.false_eq_true, if_false] at h
      rw [ConvM.bind_apply, get_dummy_ok] at h
      simp only [] at h
      rcases hc : SceneWriter.color b_mat.diffuse_color with ec | cv
      · rw [hc, show liftE (Except.error ec : Except PyErr DVal) =
          (ConvM.throw ec : ConvM DVal) from rfl, ConvM.throw_bind,
          ConvM.throw_apply] at h
        have h2 := congrArg Prod.fst h
        simp only at h2
        injection h2 with h2
        rw [← h2]
        exact color_err_not_NIE _ _ hc
      · rw [hc] at h
        simp only [liftE_ok_eq, ConvM.pure_bind] at h
        rcases hs : DVal.setItem (dummyFor b_mat.name_full) "color" cv
          with es | dv
        · rw [hs, show liftE (Except.error es : Except PyErr DVal) =
            (ConvM.throw es : ConvM DVal) from rfl, ConvM.throw_bind,
            ConvM.throw_apply] at h
          have h2 := congrArg Prod.fst h
          simp only at h2
          injection h2 with h2
          rw [← h2]
          exact setItem_err_not_NIE _ _ _ _ hs
        · rw [hs] at h
          simp only [liftE_ok_eq, ConvM.pure_bind, ConvM.pure_apply] at h
          exact absurd (congrArg Prod.fst h) (by simp)

def nodeDiffBad : Node :=
  { bl_idname := "ShaderNodeBsdfDiffuse",
    inputs := [("Color", { default_value := .seq [.num (.float 1),
        .num (.float 2)] }),
      ("Roughness", { default_value := .num (.float 0) })] }

def outNodeC2 : Node :=
  { bl_idname := "ShaderNodeOutputMaterial",
    inputs := [("Surface", { link := some ⟨"D", "BSDF"⟩ })] }

def matC2 : BMat :=
  { name_full := "Bad",
    node_tree := [("Material Output", outNodeC2), ("D", nodeDiffBad)] }

/-- C2 counterexample: a malformed literal color (the InvalidColorShape
case of the claim) raised inside a named material conversion is NOT caught
at the named boundary — `convert_material` propagates the ValueError
instead of reporting a warning and substituting the dummy material. -/
theorem C2_counterexample :
    convert_material {} 5 matC2 {} =
      (Except.error (.valueError "Expected color items to be 1,3 or 4"),
       ({} : ExpState)) := rfl

def matW2 : BMat := { name_full := "Empty Mat", node_tree := [] }

/-- C2 witness: a NotImplementedError (missing output node) is caught at
the named boundary and replaced by the dummy material plus a warning. -/
theorem C2_witness :
    convert_material {} 3 matW2 {} =
      (Except.ok (dummyFor "Empty Mat", Option.none),
       { warnings := [convertFailWarning] }) :=
  C2_named_boundary_amended.1 {} 3 matW2 {} {}
    "Cannot find material output node" rfl rfl

/-! ## Claim C10: the volume-absorption TypeError -/

/-- The per-channel `max(1.0 - pow(max(x, 0.0), 0.5))` comprehension dies at
its first element: a single-argument `max` over a float raises TypeError. -/
theorem mapM_maxsingle_err (c : ℚ) (rest : List ℚ) :
    ((c :: rest).mapM fun x => pyMaxOfSingleFloat (1 - pyPowHalf (max x 0)))
      = Except.error (.typeError "float object is not iterable") := by
  rw [List.mapM_cons]
  rfl

def nodeAbs : Node :=
  { bl_idname := "ShaderNodeVolumeAbsorption",
    inputs := [("Color", { default_value := .seq [.num (.float 0),
        .num (.float 0), .num (.float 0), .num (.float 1)] }),
      ("Density", { default_value := .num (.float 1) })] }

def outNodeC10 : Node :=
  { bl_idname := "ShaderNodeOutputMaterial",
    inputs := [("Volume", { link := some ⟨"A", "Volume"⟩ })] }

def matC10 : BMat :=
  { name_full := "Smoke",
    node_tree := [("Material Output", outNodeC10), ("A", nodeAbs)] }

def meshC10 : BMesh :=
  { name_full := "Cube", data := some { materials := [some matC10] } }

/--
C10 (confirmed).  (1) Converting a homogeneous volume-absorption node whose
Color and Density inputs are unconnected raises TypeError while computing
the `total` field — `max()` is called with a single float argument — so no
descriptor is ever returned; (2) the named boundary catches only
NotImplementedError, so a TypeError from the conversion body escapes
`convert_material` unchanged; (3) consequently an export containing such a
material aborts with the TypeError.
-/
theorem C10_absorption_type_error :
    (∀ (ctx : Ctx) (node : Node) (cSock dSock : InSocket) (chans : List ℚ)
       (s : ExpState),
       node.getInput "Color" = Except.ok cSock →
       node.getInput "Density" = Except.ok dSock →
       cSock.isLinked = false →
       dSock.isLinked = false →
       cSock.default_value = .seq (chans.map fun q => PyElem.num (.float q)) →
       chans ≠ [] →
       convert_volume_absorption_node ctx node s =
         (Except.error (.typeError "float object is not iterable"), s))
    ∧ (∀ (ctx : Ctx) (fuel : ℕ) (b_mat : BMat) (s s1 : ExpState)
       (msg : String),
       b_mat.use_nodes = true →
       convert_material_body ctx fuel b_mat s =
         (Except.error (.typeError msg), s1) →
       convert_material ctx fuel b_mat s =
         (Except.error (.typeError msg), s1))
    ∧ (materials_export {} 5 [] [meshC10] {} =
        (Except.error (.typeError "float object is not iterable"),
         ({} : ExpState))) := by
  refine ⟨?_, ?_, ?_⟩
  · intro ctx node cSock dSock chans s hC hD hCl hDl hCdef hne
    rcases chans with - | ⟨c, rest⟩
    · exact absurd rfl hne
    · simp only [convert_volume_absorption_node, hC, hD, liftE_ok_eq,
        ConvM.pure_bind, hCl, hDl, Bool.false_eq_true, Bool.or_self,
        if_false, hCdef, channels_float_seq, mapM_maxsingle_err]
      rfl
  · intro ctx fuel b_mat s s1 msg hun hb
    unfold convert_material
    rw [hun]
    simp only [if_true]
    unfold catchNIE
    rw [hb]
  · rfl

/-- C10 witness: the TypeError at the concrete absorption node, its escape
through the named boundary, and the aborted export. -/
theorem C10_witness :
    convert_volume_absorption_node {} nodeAbs {} =
      (Except.error (.typeError "float object is not iterable"),
       ({} : ExpState)) :=
  C10_absorption_type_error.1 {} nodeAbs
    { default_value := .seq [.num (.float 0), .num (.float 0),
        .num (.float 0), .num (.float 1)] }
    { default_value := .num (.float 1) } [0, 0, 0, 1] {}
    rfl rfl rfl rfl rfl (by decide)

/-! ## Claim C3: at-most-once conversion per material key -/

/-- The cache key a material slot contributes, if the loop's usability
filters pass (materials.py lines 529-538). -/
def usableKey : Option BMat → Option String
  | Option.none => Option.none
  | some mat =>
    if mat.name_full == "Dots Stroke" || mat.users == 0 then Option.none
    else some ("mat-" ++ mat.name_full)

/-- The keys one mesh's material slots contribute, in encounter order. -/
def meshKeys (mesh : BMesh) : List String :=
  match mesh.data with
  | Option.none => []
  | some data =>
    if data.materials.isEmpty then [] else data.materials.filterMap usableKey

/-- All keys the loop encounters, in order, duplicates included. -/
def encounteredKeys : List BMesh → List String
  | [] => []
  | m :: ms => meshKeys m ++ encounteredKeys ms

/-- First-occurrence filtering: the subsequence of keys not already seen,
each kept only at its first occurrence. -/
def newKeys (seen : List String) : List String → List String
  | [] => []
  | k :: ks =>
    if k ∈ seen then newKeys seen ks else k :: newKeys (k :: seen) ks

def cacheKeys (c : List (String × DVal)) : List String := c.map Prod.fst

theorem newKeys_congr : ∀ (l s1 s2 : List String),
    (∀ x, x ∈ s1 ↔ x ∈ s2) → newKeys s1 l = newKeys s2 l := by
  intro l
  induction l with
  | nil => intro s1 s2 h; rfl
  | cons k ks ih =>
    intro s1 s2 h
    simp only [newKeys]
    by_cases hk : k ∈ s1
    · rw [if_pos hk, if_pos ((h k).mp hk)]
      exact ih s1 s2 h
    · rw [if_neg hk, if_neg (fun hc => hk ((h k).mpr hc))]
      rw [ih (k :: s1) (k :: s2) (by intro x; simp [h x])]

theorem mem_newKeys : ∀ (l seen : List String) (x : String),
    x ∈ newKeys seen l → x ∉ seen := by
  intro l
  induction l with
  | nil =>
    intro seen x h
    exact absurd h (List.not_mem_nil x)
  | cons k ks ih =>
    intro seen x h
    simp only [newKeys] at h
    by_cases hk : k ∈ seen
    · rw [if_pos hk] at h
      exact ih seen x h
    · rw [if_neg hk] at h
      rcases List.mem_cons.mp h with rfl | h2
      · exact hk
      · intro hx
        exact ih (k :: seen) x h2 (List.mem_cons_of_mem k hx)

theorem newKeys_nodup : ∀ (l seen : List String), (newKeys seen l).Nodup := by
  intro l
  induction l with
  | nil => intro seen; exact List.nodup_nil
  | cons k ks ih =>
    intro seen
    simp only [newKeys]
    by_cases hk : k ∈ seen
    · rw [if_pos hk]
      exact ih seen
    · rw [if_neg hk]
      refine List.nodup_cons.mpr ⟨?_, ih (k :: seen)⟩
      intro hmem
      exact mem_newKeys ks (k :: seen) k hmem (List.mem_cons_self k seen)

theorem newKeys_append : ∀ (l1 l2 seen : List String),
    newKeys seen (l1 ++ l2) =
      newKeys seen l1 ++ newKeys (newKeys seen l1 ++ seen) l2 := by
  intro l1
  induction l1 with
  | nil =>
    intro l2 seen
    simp [newKeys]
  | cons k ks ih =>
    intro l2 seen
    simp only [List.cons_append, newKeys, List.append_eq]
    by_cases hk : k ∈ seen
    · rw [if_pos hk, if_pos hk, ih]
    · rw [if_neg hk, if_neg hk]
      rw [ih l2 (k :: seen)]
      simp only [List.cons_append]
      congr 1
      congr 1
      refine newKeys_congr l2 _ _ ?_
      intro x
      simp only [List.mem_append, List.mem_cons]
      tauto

theorem dmem_iff_mem_cacheKeys (c : List (String × DVal)) (k : String) :
    dmem c k = true ↔ k ∈ cacheKeys c := by
  unfold dmem cacheKeys
  rw [List.any_eq_true]
  constructor
  · rintro ⟨p, hp, hpk⟩
    have hk : p.1 = k := by simpa using hpk
    exact hk ▸ List.mem_map_of_mem Prod.fst hp
  · intro hk
    rcases List.mem_map.mp hk with ⟨p, hp, rfl⟩
    exact ⟨p, hp, by simp⟩

theorem cacheKeys_dset_fresh (c : List (String × DVal)) (k : String)
    (v : DVal) (h : dmem c k = false) :
    cacheKeys (dset c k v) = cacheKeys c ++ [k] := by
  induction c with
  | nil => rfl
  | cons p rest ih =>
    obtain ⟨k0, v0⟩ := p
    simp only [dmem, List.any_cons, Bool.or_eq_false_iff] at h
    obtain ⟨h1, h2⟩ := h
    simp only [dset, h1, Bool.false_eq_true, if_false]
    simp only [cacheKeys, List.map_cons, List.cons_append]
    congr 1
    exact ih (by simpa [dmem] using h2)

theorem export_mats_fold (ctx : Ctx) (fuel : ℕ) :
    ∀ (mats : List (Option BMat)) (acc acc1 : ExportAcc) (s s1 : ExpState),
    List.foldlM (export_mat_step ctx fuel) acc mats s = (Except.ok acc1, s1) →
    acc1.trace =
      acc.trace ++ newKeys (cacheKeys acc.cache) (mats.filterMap usableKey)
    ∧ cacheKeys acc1.cache =
      cacheKeys acc.cache ++
        newKeys (cacheKeys acc.cache) (mats.filterMap usableKey)
    ∧ acc1.materials.length =
      acc.materials.length +
        (newKeys (cacheKeys acc.cache) (mats.filterMap usableKey)).length := by
  intro mats
  induction mats with
  | nil =>
    intro acc acc1 s s1 h
    simp only [List.foldlM_nil] at h
    obtain ⟨rfl, rfl⟩ := ConvM.pure_eq_ok.mp h
    simp [newKeys]
  | cons om rest ih =>
    intro acc acc1 s s1 h
    rw [List.foldlM_cons] at h
    obtain ⟨acc2, s2, hstep, hrest⟩ := ConvM.bind_eq_ok.mp h
    cases om with
    | none =>
      simp only [export_mat_step] at hstep
      obtain ⟨heq, hseq⟩ := ConvM.pure_eq_ok.mp hstep
      rw [heq, hseq] at hrest
      simpa only [List.filterMap_cons, usableKey] using ih acc acc1 s s1 hrest
    | some mat =>
      simp only [export_mat_step] at hstep
      by_cases hskip : (mat.name_full == "Dots Stroke" || mat.users == 0) = true
      · rw [if_pos hskip] at hstep
        obtain ⟨heq, hseq⟩ := ConvM.pure_eq_ok.mp hstep
        rw [heq, hseq] at hrest
        have hkey : usableKey (some mat) = Option.none := by
          simp only [usableKey, if_pos hskip]
        simpa only [List.filterMap_cons, hkey] using ih acc acc1 s s1 hrest
      · rw [if_neg hskip] at hstep
        have hkey : usableKey (some mat) = some ("mat-" ++ mat.name_full) := by
          simp only [usableKey, if_neg hskip]
        by_cases hc : dmem acc.cache ("mat-" ++ mat.name_full) = true
        · rw [if_pos hc] at hstep
          obtain ⟨heq, hseq⟩ := ConvM.pure_eq_ok.mp hstep
          rw [heq, hseq] at hrest
          have hmem : ("mat-" ++ mat.name_full) ∈ cacheKeys acc.cache :=
            (dmem_iff_mem_cacheKeys _ _).mp hc
          simpa only [List.filterMap_cons, hkey, newKeys, if_pos hmem] using
            ih acc acc1 s s1 hrest
        · rw [if_neg hc] at hstep
          obtain ⟨conv, s3, hconv, hpure⟩ := ConvM.bind_eq_ok.mp hstep
          obtain ⟨heq, hseq⟩ := ConvM.pure_eq_ok.mp hpure
          rw [heq, hseq] at hrest
          have hcfalse : dmem acc.cache ("mat-" ++ mat.name_full) = false := by
            simpa using hc
          have hnmem : ("mat-" ++ mat.name_full) ∉ cacheKeys acc.cache := by
            intro hm
            exact hc ((dmem_iff_mem_cacheKeys _ _).mpr hm)
          obtain ⟨ht, hcK, hlen⟩ := ih _ acc1 s3 s1 hrest
          dsimp only at ht hcK hlen
          have hck2 :
              cacheKeys (dset acc.cache ("mat-" ++ mat.name_full) conv.1) =
                cacheKeys acc.cache ++ ["mat-" ++ mat.name_full] :=
            cacheKeys_dset_fresh _ _ _ hcfalse
          have hcong :
              newKeys (cacheKeys acc.cache ++ ["mat-" ++ mat.name_full])
                  (rest.filterMap usableKey) =
                newKeys (("mat-" ++ mat.name_full) :: cacheKeys acc.cache)
                  (rest.filterMap usableKey) := by
            refine newKeys_congr _ _ _ ?_
            intro x
            simp only [List.mem_append, List.mem_cons,
              List.mem_singleton]
            tauto
          rw [hck2, hcong] at ht hcK hlen
          refine ⟨?_, ?_, ?_⟩
          · rw [ht]
            simp only [List.filterMap_cons, hkey, newKeys, if_neg hnmem]
            simp [List.append_assoc]
          · rw [hcK]
            simp only [List.filterMap_cons, hkey, newKeys, if_neg hnmem]
            simp [List.append_assoc]
          · rw [hlen]
            simp only [List.filterMap_cons, hkey, newKeys, if_neg hnmem]
            simp [List.length_append]
            omega

theorem export_meshes_fold (ctx : Ctx) (fuel : ℕ) :
    ∀ (meshes : List BMesh) (acc acc1 : ExportAcc) (s s1 : ExpState),
    export_convert_loop ctx fuel meshes acc s = (Except.ok acc1, s1) →
    acc1.trace =
      acc.trace ++ newKeys (cacheKeys acc.cache) (encounteredKeys meshes)
    ∧ cacheKeys acc1.cache =
      cacheKeys acc.cache ++
        newKeys (cacheKeys acc.cache) (encounteredKeys meshes)
    ∧ acc1.materials.length =
      acc.materials.length +
        (newKeys (cacheKeys acc.cache) (encounteredKeys meshes)).length := by
  intro meshes
  induction meshes with
  | nil =>
    intro acc acc1 s s1 h
    simp only [export_convert_loop, List.foldlM_nil] at h
    obtain ⟨heq, hseq⟩ := ConvM.pure_eq_ok.mp h
    rw [heq]
    simp [encounteredKeys, newKeys]
  | cons m ms ih =>
    intro acc acc1 s s1 h
    simp only [export_convert_loop, List.foldlM_cons] at h
    obtain ⟨acc2, s2, hstep, hrest⟩ := ConvM.bind_eq_ok.mp h
    have hrest2 : export_convert_loop ctx fuel ms acc2 s2 =
        (Except.ok acc1, s1) := hrest
    cases hd : m.data with
    | none =>
      simp only [export_mesh_step, hd] at hstep
      obtain ⟨heq, hseq⟩ := ConvM.pure_eq_ok.mp hstep
      rw [heq, hseq] at hrest2
      simpa only [encounteredKeys, meshKeys, hd, List.nil_append] using
        ih acc acc1 s s1 hrest2
    | some data =>
      simp only [export_mesh_step, hd] at hstep
      by_cases he : data.materials.isEmpty = true
      · rw [if_pos he] at hstep
        obtain ⟨heq, hseq⟩ := ConvM.pure_eq_ok.mp hstep
        rw [heq, hseq] at hrest2
        simpa only [encounteredKeys, meshKeys, hd, if_pos he,
          List.nil_append] using ih acc acc1 s s1 hrest2
      · rw [if_neg he] at hstep
        have hmk : meshKeys m = data.materials.filterMap usableKey := by
          simp only [meshKeys, hd, if_neg he]
        obtain ⟨ht2, hc2, hl2⟩ :=
          export_mats_fold ctx fuel data.materials acc acc2 s s2 hstep
        obtain ⟨ht1, hc1, hl1⟩ := ih acc2 acc1 s2 s1 hrest2
        have hcong2 :
            newKeys (cacheKeys acc2.cache) (encounteredKeys ms) =
              newKeys
                (newKeys (cacheKeys acc.cache)
                    (data.materials.filterMap usableKey) ++
                  cacheKeys acc.cache)
                (encounteredKeys ms) := by
          refine newKeys_congr _ _ _ ?_
          intro x
          rw [hc2]
          simp only [List.mem_append]
          tauto
        rw [hcong2] at ht1 hc1 hl1
        refine ⟨?_, ?_, ?_⟩
        · rw [ht1, ht2]
          simp only [encounteredKeys]
          rw [hmk, newKeys_append, List.append_assoc]
        · rw [hc1, hc2]
          simp only [encounteredKeys]
          rw [hmk, newKeys_append, List.append_assoc]
        · rw [hl1, hl2]
          simp only [encounteredKeys]
          rw [hmk, newKeys_append]
          simp only [List.length_append]
          omega

/-- **C3.** For every material key `"mat-" ++ name_full`, the CONVERT-mode
export loop converts at most once per run: starting from the empty
per-run cache, the ordered list of keys for which `convert_material` is
invoked (the ghost trace) is exactly the first-occurrence filtering of
the keys encountered across all mesh slots — duplicate-free, so each key
triggers conversion at most once (`count ≤ 1`); the cache holds exactly
the converted keys, and the output materials list grows by exactly one
descriptor per distinct converted key, regardless of how many meshes
reference the same material. -/
theorem C3_cache_at_most_once (ctx : Ctx) (fuel : ℕ) (meshes : List BMesh)
    (acc0 acc1 : ExportAcc) (s s1 : ExpState)
    (hc0 : acc0.cache = []) (ht0 : acc0.trace = [])
    (h : export_convert_loop ctx fuel meshes acc0 s = (Except.ok acc1, s1)) :
    acc1.trace = newKeys [] (encounteredKeys meshes)
    ∧ acc1.trace.Nodup
    ∧ (∀ k, acc1.trace.count k ≤ 1)
    ∧ cacheKeys acc1.cache = acc1.trace
    ∧ acc1.materials.length =
        acc0.materials.length + acc1.trace.length := by
  obtain ⟨h1, h2, h3⟩ := export_meshes_fold ctx fuel meshes acc0 acc1 s s1 h
  rw [hc0] at h1 h2 h3
  rw [ht0] at h1
  simp only [cacheKeys, List.map_nil, List.nil_append] at h1 h2 h3
  refine ⟨h1, ?_, ?_, ?_, ?_⟩
  · rw [h1]
    exact newKeys_nodup _ _
  · intro k
    rw [h1]
    exact List.nodup_iff_count_le_one.mp (newKeys_nodup _ _) k
  · unfold cacheKeys
    rw [h2, h1]
  · rw [h3, h1]

def matMC3 : BMat :=
  { name_full := "M", use_nodes := false,
    diffuse_color := .seq [.num (.float 1), .num (.float 0), .num (.float 0),
      .num (.float 1)] }

def matNC3 : BMat :=
  { name_full := "N", use_nodes := false,
    diffuse_color := .seq [.num (.float 0), .num (.float 1), .num (.float 0),
      .num (.float 1)] }

/-- Two meshes sharing material M: key `mat-M` is encountered twice. -/
def meshesC3 : List BMesh :=
  [{ name_full := "a", data := some { materials := [some matMC3, some matNC3] } },
   { name_full := "b", data := some { materials := [some matMC3] } }]

def accW0C3 : ExportAcc := ⟨[], [], [], []⟩

def dMC3 : DVal := .dict [("type", .str "diffuse"),
  ("color", .list [.num 1, .num 0, .num 0]), ("name", .str "M")]

def dNC3 : DVal := .dict [("type", .str "diffuse"),
  ("color", .list [.num 0, .num 1, .num 0]), ("name", .str "N")]

def accW1C3 : ExportAcc :=
  ⟨[dMC3, dNC3], [], [("mat-M", dMC3), ("mat-N", dNC3)], ["mat-M", "mat-N"]⟩

/-- C3 witness: the concrete two-mesh scene referencing material M twice
converts M and N once each — the trace is the duplicate-free
`["mat-M", "mat-N"]`, the cache keys equal the trace, and exactly two
descriptors are appended. -/
theorem C3_witness :
    accW0C3.cache = [] ∧ accW0C3.trace = [] ∧
    export_convert_loop {} 4 meshesC3 accW0C3 ⟨[]⟩ =
      (Except.ok accW1C3, (⟨[]⟩ : ExpState)) ∧
    accW1C3.trace = ["mat-M", "mat-N"] ∧
    accW1C3.trace.Nodup ∧
    accW1C3.trace.count "mat-M" ≤ 1 ∧
    cacheKeys accW1C3.cache = accW1C3.trace ∧
    accW1C3.materials.length = accW0C3.materials.length +
      accW1C3.trace.length := by
  have hrun : export_convert_loop {} 4 meshesC3 accW0C3 ⟨[]⟩ =
      (Except.ok accW1C3, (⟨[]⟩ : ExpState)) := rfl
  obtain ⟨h1, h2, h3, h4, h5⟩ := C3_cache_at_most_once {} 4 meshesC3
    accW0C3 accW1C3 ⟨[]⟩ ⟨[]⟩ rfl rfl hrun
  exact ⟨rfl, rfl, hrun, by rw [h1]; rfl, h2, h3 "mat-M", h4, h5⟩
